import Mathlib

/-!
Verification of the match-reconciliation logic of the Staging repository.

The definitions below are a shallow embedding of the Python source:
`parse_tracker_json` (src/staging/utils.py, duplicated near-verbatim in
src/staging/visitor_dashboard.py) and `save_match_result`
(src/staging/views/admin.py).  Strings are modelled as Lean `String`s
restricted to ASCII (Python `str.lower`/`str.strip` agree with
`Char.toLower` and ASCII whitespace stripping).  Python floats `100.0`/`80.0` used
as confidence scores appear only as the exact literals `100`/`80`, so they
are modelled as `Nat`.  Python dicts are modelled as insertion-ordered
association lists where assignment to an existing key updates the value in
place.  Python sets of small non-negative ints are modelled by their
CPython hash table (8 slots, `hash n = n`, perturb probing, no resize);
all concrete inputs below stay in the no-resize regime (at most four
elements per set).
-/

/-- Python truthiness of an optional string: `None` and `""` are falsy. -/
def isTruthyS : Option String → Bool
  | none => false
  | some s => s ≠ ""

/-- ASCII model of Python `str.lower` (character-list implementation, so
that proofs can evaluate it). -/
def pyLower (s : String) : String := ⟨s.data.map Char.toLower⟩

/-- ASCII model of Python `str.strip`. -/
def pyStrip (s : String) : String :=
  ⟨((s.data.dropWhile Char.isWhitespace).reverse.dropWhile Char.isWhitespace).reverse⟩

/-- Model of Python `s.replace('@', '')`: drop every `'@'`. -/
def removeAtSign (s : String) : String := ⟨s.data.filter (fun c => c ≠ '@')⟩

/-- Model of Python `rid.split('#')[0]`: the part before the first `'#'`. -/
def hashHead (s : String) : String := ⟨s.data.takeWhile (fun c => c ≠ '#')⟩

/-- Model of Python substring containment `small in big`. -/
def strContains (big small : String) : Bool :=
  (List.range (big.data.length + 1)).any (fun i => small.data.isPrefixOf (big.data.drop i))

/-- A row of the `players` table: `id, name, riot_id, default_team_id`
(`rank` is never read by the reconciliation logic). -/
structure Player where
  id : Nat
  name : String
  riotId : Option String
  defaultTeamId : Option Nat
deriving DecidableEq, Repr

/-- Python dict assignment `d[k] = v`: update the key's entry in place if
it exists (keys are unique by construction), else append, preserving
insertion order. -/
def dictSet {α : Type} : List (String × α) → String → α → List (String × α)
  | [], k, v => [(k, v)]
  | kv :: rest, k, v =>
    if kv.1 = k then (k, v) :: rest else kv :: dictSet rest k v

/-- Python dict lookup `d.get(k)`. -/
def dictGet {α : Type} (d : List (String × α)) (k : String) : Option α :=
  (d.find? (fun kv => kv.1 = k)).map (fun kv => kv.2)

/-- A `player-summary` segment after JSON field extraction: each field holds
the result of the code's `.get` chain (`none` models Python `None`). -/
structure PSeg where
  teamId : Option String
  platformUserIdentifier : Option String
  platformUserHandle : Option String
  agentName : Option String
  acs : Option Int
  kills : Option Int
  deaths : Option Int
  assists : Option Int
deriving DecidableEq, Repr

/-- A `team-summary` segment: `attributes.teamId` and
`stats.roundsWon.value` (the code defaults a missing value to 0). -/
structure TSeg where
  teamId : Option String
  roundsWon : Int
deriving DecidableEq, Repr

/-- One element of the telemetry `segments` list. -/
inductive Segment where
  | team (t : TSeg)
  | player (p : PSeg)
  | other
deriving DecidableEq, Repr

/-- The telemetry document: its `segments` list and `metadata.mapName`. -/
structure Doc where
  segments : List Segment
  mapName : Option String
deriving DecidableEq, Repr

/-- The list `[s for s in segments if s.get("type") == "team-summary"]`. -/
def team_segments (segs : List Segment) : List TSeg :=
  segs.filterMap (fun s => match s with | .team t => some t | _ => none)

/-- The list `[s for s in segments if s.get("type") == "player-summary"]`. -/
def player_segments (segs : List Segment) : List PSeg :=
  segs.filterMap (fun s => match s with | .player p => some p | _ => none)

/-- `rid = platformUserIdentifier; if not rid: rid = platformUserHandle`. -/
def rawRid (p : PSeg) : Option String :=
  if isTruthyS p.platformUserIdentifier then p.platformUserIdentifier
  else p.platformUserHandle

/-- The per-team lookup keys the side-resolution pass builds:
`t1_rids`, `t1_names`, `t1_names_clean` in the source. -/
structure TeamKeys where
  rids : List String
  names : List String
  namesClean : List String
deriving DecidableEq, Repr

/-- Builds `tN_rids`, `tN_names`, `tN_names_clean` from the roster of the
players whose `default_team_id` equals `tid`. -/
def rosterKeys (players : List Player) (tid : Nat) : TeamKeys :=
  let roster := players.filter (fun p => p.defaultTeamId = some tid)
  let names := roster.map (fun p => pyLower (pyStrip p.name))
  { rids := roster.filterMap (fun p => p.riotId.map (fun r => pyLower (pyStrip r)))
    names := names
    namesClean := names.map (fun n => pyStrip (removeAtSign n)) }

/-- The `is_t1` / `is_t2` test of the side-resolution pass: exact key
membership, then substring containment either way against the cleaned
names. -/
def keyMatches (ks : TeamKeys) (ridClean namePart : String) : Bool :=
  ks.rids.contains ridClean || ks.names.contains ridClean ||
  ks.names.contains namePart || ks.namesClean.contains namePart ||
  ks.namesClean.any (fun tn => strContains tn namePart || strContains namePart tn)

/-- Whether one player-summary segment counts as a match for a team in the
side-resolution scoring loop (falsy identifiers are skipped). -/
def segScoreMatch (ks : TeamKeys) (p : PSeg) : Bool :=
  match rawRid p with
  | none => false
  | some s =>
    s ≠ "" &&
      (let rc := pyLower (pyStrip s)
       keyMatches ks rc (hashHead rc))

/-- `scores[tid][team]`: the number of player-summary segments carrying
tracker team `tid` whose identifier matches the roster keys `ks`. -/
def scoreFor (ks : TeamKeys) (psegs : List PSeg) (tid : Option String) : Nat :=
  ((psegs.filter (fun p => p.teamId = tid)).filter (segScoreMatch ks)).length

/-- `score_a`: overlap total of the mapping (first tracker team -> team 1,
second tracker team -> team 2); 0 when fewer than two team segments. -/
def score_a (players : List Player) (t1 t2 : Nat) (segs : List Segment) : Nat :=
  match team_segments segs with
  | ts0 :: ts1 :: _ =>
    scoreFor (rosterKeys players t1) (player_segments segs) ts0.teamId +
    scoreFor (rosterKeys players t2) (player_segments segs) ts1.teamId
  | _ => 0

/-- `score_b`: overlap total of the swapped mapping. -/
def score_b (players : List Player) (t1 t2 : Nat) (segs : List Segment) : Nat :=
  match team_segments segs with
  | ts0 :: ts1 :: _ =>
    scoreFor (rosterKeys players t2) (player_segments segs) ts0.teamId +
    scoreFor (rosterKeys players t1) (player_segments segs) ts1.teamId
  | _ => 0

/-- `tracker_team_1_id`: the tracker team identified with database team 1.
Mirrors the source decision chain including the single- and zero-segment
fallbacks.  A `none` value plays the role of Python `None` both as "no team
segment" and as a missing `attributes.teamId` (Python conflates the two in
the later `==` comparisons exactly the same way). -/
def trackerTeam1 (players : List Player) (t1 t2 : Nat) (segs : List Segment) : Option String :=
  match team_segments segs with
  | ts0 :: ts1 :: _ =>
    let sa := score_a players t1 t2 segs
    let sb := score_b players t1 t2 segs
    if sa ≥ sb ∧ sa > 0 then ts0.teamId
    else if sb > sa then ts1.teamId
    else ts0.teamId
  | [ts0] => ts0.teamId
  | [] => none

/-- The dict comprehension building `riot_id_to_name`
(case-insensitive `riot_id -> name`, rows with a null riot_id skipped,
later rows overwriting earlier ones). -/
def riot_id_to_name (players : List Player) : List (String × String) :=
  players.foldl
    (fun d p =>
      match p.riotId with
      | some r => dictSet d (pyLower (pyStrip r)) p.name
      | none => d)
    []

/-- The dict comprehension building `name_to_name`
(case-insensitive `name -> name`). -/
def name_to_name (players : List Player) : List (String × String) :=
  players.foldl (fun d p => dictSet d (pyLower (pyStrip p.name)) p.name) []

/-- The suggestion-pass lookup chain: riot-id map first, then the name map
keyed by the part before `'#'`, then the name map keyed by the whole
lowered identifier.  `rid` is the already-stripped tracker identifier. -/
def matchedName (players : List Player) (rid : String) : Option String :=
  let ridLower := pyLower rid
  let m1 := dictGet (riot_id_to_name players) ridLower
  if isTruthyS m1 then m1
  else
    let namePart := pyLower (hashHead rid)
    let m2 := dictGet (name_to_name players) namePart
    if isTruthyS m2 then m2
    else dictGet (name_to_name players) ridLower

/-- One value of the `json_suggestions` dict. -/
structure Sugg where
  name : Option String
  trackerName : String
  acs : Int
  k : Int
  d : Int
  a : Int
  agent : Option String
  teamNum : Nat
  conf : Nat
deriving DecidableEq, Repr

/-- The suggestion record built for one player-summary segment with
stripped identifier `rid`. -/
def suggOf (players : List Player) (tt1 : Option String) (p : PSeg) (rid : String) : Sugg :=
  { name := matchedName players rid
    trackerName := rid
    acs := (p.acs).getD 0
    k := (p.kills).getD 0
    d := (p.deaths).getD 0
    a := (p.assists).getD 0
    agent := p.agentName
    teamNum := if p.teamId = tt1 then 1 else 2
    conf := if isTruthyS (matchedName players rid) then 100 else 80 }

/-- The second pass of `parse_tracker_json`: the `json_suggestions` dict,
keyed by the stripped, lowered identifier. -/
def buildSuggestions (players : List Player) (tt1 : Option String) (segs : List Segment) :
    List (String × Sugg) :=
  segs.foldl
    (fun acc seg =>
      match seg with
      | .player p =>
        match rawRid p with
        | some s =>
          if s = "" then acc
          else
            let rid := pyStrip s
            if rid = "" then acc
            else dictSet acc (pyLower rid) (suggOf players tt1 p rid)
        | none => acc
      | _ => acc)
    []

/-- The value `parse_tracker_json` returns:
`(json_suggestions, map_name, t1_rounds, t2_rounds)`. -/
structure ParseResult where
  suggestions : List (String × Sugg)
  mapName : Option String
  t1Rounds : Int
  t2Rounds : Int
deriving DecidableEq, Repr

/-- Shallow embedding of `parse_tracker_json` (src/staging/utils.py). -/
def parse_tracker_json (jsdata : Doc) (team1_id team2_id : Nat) (all_players : List Player) :
    ParseResult :=
  let segs := jsdata.segments
  let tt1 := trackerTeam1 all_players team1_id team2_id segs
  let sugg := buildSuggestions all_players tt1 segs
  let rounds : Int × Int :=
    match team_segments segs with
    | ts0 :: ts1 :: _ =>
      if tt1 = ts0.teamId then (ts0.roundsWon, ts1.roundsWon)
      else (ts1.roundsWon, ts0.roundsWon)
    | _ => (0, 0)
  { suggestions := sugg
    mapName := jsdata.mapName
    t1Rounds := rounds.1
    t2Rounds := rounds.2 }

/-- Modelled from the spec: the `ambiguous` flag of
`TeamSideResolver.resolve`, which the spec requires to be part of the
returned value.  The source returns no such component; this definition
follows the spec's words (`ambiguous=true` on a tie of the two candidate
overlap totals, including 0-0, and in the degraded fewer-than-two-sides
case). -/
def resolveAmbiguousSpec (players : List Player) (t1 t2 : Nat) (segs : List Segment) : Bool :=
  match team_segments segs with
  | _ :: _ :: _ => score_a players t1 t2 segs = score_b players t1 t2 segs
  | _ => true

/-- One probing step of CPython's `set_add_entry` for a table of 8 slots
(`LINEAR_PROBES` never fits within a mask of 7, so each round inspects one
slot and then perturbs). -/
def pySetInsertGo (x : Nat) : Nat → List (Option Nat) → Nat → Nat → List (Option Nat)
  | 0, t, _, _ => t
  | fuel + 1, t, i, perturb =>
    match t.getD i none with
    | none => t.set i (some x)
    | some y =>
      if y = x then t
      else pySetInsertGo x fuel t ((i * 5 + 1 + perturb / 32) % 8) (perturb / 32)

/-- CPython small-int set insertion into an 8-slot table:
`hash n = n`, first slot `n % 8`, then perturb probing.  Faithful to the
source's Python sets below the resize threshold (at most four elements);
every concrete set in this file stays in that regime. -/
def pySetInsert (t : List (Option Nat)) (x : Nat) : List (Option Nat) :=
  pySetInsertGo x 64 t (x % 8) x

/-- An empty CPython set table. -/
def pySetEmpty : List (Option Nat) := List.replicate 8 none

/-- `set(xs)`: inserting the elements of `xs` in order. -/
def pySetOf (xs : List Nat) : List (Option Nat) := xs.foldl pySetInsert pySetEmpty

/-- Set iteration order: the occupied slots in table order.  This is the
order `list(s)` and `for x in s` observe. -/
def pySetElems (t : List (Option Nat)) : List Nat := t.filterMap id

/-- `x in s`. -/
def pySetMember (t : List (Option Nat)) (x : Nat) : Bool := (pySetElems t).contains x

/-- `a - b` on CPython sets: iterate `a` in slot order, insert the
elements not in `b` into a fresh table. -/
def pySetDiff (a b : List (Option Nat)) : List (Option Nat) :=
  (pySetElems a).foldl (fun t x => if pySetMember b x then t else pySetInsert t x) pySetEmpty

/-- `list(set(roster) - set(present))`: the source's missing-player queue
(`t1_missing` / `t2_missing` in `save_match_result`). -/
def missingIds (roster present : List Nat) : List Nat :=
  pySetElems (pySetDiff (pySetOf roster) (pySetOf present))

/-- Resolution of one suggestion inside `save_match_result`:
`SELECT id, default_team_id FROM players WHERE name=?` guarded by the
truthiness of `stats['name']`; `fetchone` takes the first row in table
order. -/
def resolveP (table : List Player) (s : Sugg) : Option Nat × Option Nat :=
  match s.name with
  | none => (none, none)
  | some n =>
    if n = "" then (none, none)
    else
      match table.find? (fun p => p.name = n) with
      | some p => (some p.id, p.defaultTeamId)
      | none => (none, none)

/-- `t1_present_ids`: resolved player ids among the entries whose
`team_num` is 1, in dict iteration order. -/
def presentPids1 (table : List Player) (stats : List (String × Sugg)) : List Nat :=
  stats.filterMap
    (fun ks =>
      match (resolveP table ks.2).1 with
      | some p => if ks.2.teamNum = 1 then some p else none
      | none => none)

/-- `t2_present_ids`: resolved player ids among the entries whose
`team_num` is not 1. -/
def presentPids2 (table : List Player) (stats : List (String × Sugg)) : List Nat :=
  stats.filterMap
    (fun ks =>
      match (resolveP table ks.2).1 with
      | some p => if ks.2.teamNum = 1 then none else some p
      | none => none)

/-- One row inserted into `match_stats_map` (match_id and map_index are
constant per call and omitted). -/
structure StatRow where
  team_id : Nat
  player_id : Option Nat
  agent : Option String
  acs : Int
  kills : Int
  deaths : Int
  assists : Int
  is_sub : Nat
  subbed_for_id : Option Nat
deriving DecidableEq, Repr

/-- The main loop of `save_match_result`: walks the resolved entries in
dict order, flags substitutions (`default_tid != team_id`, with a null
default counting as a substitution) and pops the front of the side's
missing queue for `subbed_for_id` when the queue is non-empty. -/
def assignRows (t1 t2 : Nat) (table : List Player) :
    List (String × Sugg) → List Nat → List Nat → List StatRow
  | [], _, _ => []
  | ks :: rest, q1, q2 =>
    let s := ks.2
    let pr := resolveP table s
    let team_id := if s.teamNum = 1 then t1 else t2
    match pr.1 with
    | none =>
      ⟨team_id, none, s.agent, s.acs, s.k, s.d, s.a, 0, none⟩ ::
        assignRows t1 t2 table rest q1 q2
    | some p =>
      if pr.2 = some team_id then
        ⟨team_id, some p, s.agent, s.acs, s.k, s.d, s.a, 0, none⟩ ::
          assignRows t1 t2 table rest q1 q2
      else if s.teamNum = 1 then
        ⟨team_id, some p, s.agent, s.acs, s.k, s.d, s.a, 1, q1.head?⟩ ::
          assignRows t1 t2 table rest q1.tail q2
      else
        ⟨team_id, some p, s.agent, s.acs, s.k, s.d, s.a, 1, q2.head?⟩ ::
          assignRows t1 t2 table rest q1 q2.tail

/-- Shallow embedding of the stats portion of `save_match_result`
(src/staging/views/admin.py): the rows inserted into `match_stats_map`,
given the two team ids, the `players` table, the two roster id lists
returned by `SELECT id FROM players WHERE default_team_id=?`, and the
suggestion dict produced by `parse_tracker_json`. -/
def save_match_result (t1 t2 : Nat) (table : List Player) (roster1 roster2 : List Nat)
    (player_stats : List (String × Sugg)) : List StatRow :=
  assignRows t1 t2 table player_stats
    (missingIds roster1 (presentPids1 table player_stats))
    (missingIds roster2 (presentPids2 table player_stats))

/-- Whether a suggestion entry is recorded as a substitution:
resolved and its default team differs from its assigned team. -/
def entry_is_sub (t1 t2 : Nat) (table : List Player) (s : Sugg) : Bool :=
  match resolveP table s with
  | (some _, dt) => !(dt = some (if s.teamNum = 1 then t1 else t2))
  | (none, _) => false

/-- Number of side-1 substitution entries in a stats prefix: how many pops
the first missing queue has absorbed before a given point. -/
def subsBefore1 (t1 t2 : Nat) (table : List Player) (stats : List (String × Sugg)) : Nat :=
  (stats.filter (fun ks => entry_is_sub t1 t2 table ks.2 && ks.2.teamNum = 1)).length

/-- Number of side-2 substitution entries in a stats prefix. -/
def subsBefore2 (t1 t2 : Nat) (table : List Player) (stats : List (String × Sugg)) : Nat :=
  (stats.filter (fun ks => entry_is_sub t1 t2 table ks.2 && !(ks.2.teamNum = 1))).length

/-- Generic builder for the dict comprehensions of the source: fold a list,
keyed contribution by contribution, into a Python dict. -/
def buildDict {ι α : Type} (f : ι → Option (String × α)) (l : List ι)
    (acc : List (String × α)) : List (String × α) :=
  l.foldl
    (fun d x =>
      match f x with
      | some kv => dictSet d kv.1 kv.2
      | none => d)
    acc

/-- The keyed contribution of a player row to `riot_id_to_name`. -/
def riotKeyOf (p : Player) : Option (String × String) :=
  p.riotId.map (fun r => (pyLower (pyStrip r), p.name))

/-- The keyed contribution of a player row to `name_to_name`. -/
def nameKeyOf (p : Player) : Option (String × String) :=
  some (pyLower (pyStrip p.name), p.name)

/-- The keyed contribution of one telemetry segment to `json_suggestions`:
`none` when the segment is not a player summary or carries no usable
identifier. -/
def suggKeyOf (players : List Player) (tt1 : Option String) (seg : Segment) :
    Option (String × Sugg) :=
  match seg with
  | .player p =>
    match rawRid p with
    | some s =>
      if s = "" then none
      else
        let rid := pyStrip s
        if rid = "" then none
        else some (pyLower rid, suggOf players tt1 p rid)
    | none => none
  | _ => none

/-- The ordered list of suggestion contributions of a document. -/
def contribs (players : List Player) (tt1 : Option String) (segs : List Segment) :
    List (String × Sugg) :=
  segs.filterMap (suggKeyOf players tt1)

/-- A player-summary segment used by concrete instantiations (its stat
fields are irrelevant to the properties under test). -/
def exPSeg : PSeg :=
  ⟨some "Red", some "x", none, some "Jett", some 200, some 10, some 5, some 3⟩

/-- A player-summary segment with no identifier at all. -/
def exNoIdSeg : PSeg := ⟨some "Red", none, none, none, some 0, some 0, some 0, some 0⟩

/-- Document for the C2 counterexample: two sides, one player each, whose
identifiers match no roster exactly (only by substring, which the
suggestion pass ignores). -/
def exDocC2 : Doc :=
  ⟨[Segment.team ⟨some "Red", 13⟩, Segment.team ⟨some "Blue", 7⟩,
    Segment.player ⟨some "Red", some "carl#x", none, some "Jett", some 200, some 10, some 5, some 3⟩,
    Segment.player ⟨some "Blue", some "dave#y", none, some "Sova", some 180, some 8, some 9, some 2⟩],
   some "Ascent"⟩

/-- Roster under which `exDocC2` scores 0-0 (a tie). -/
def exPlayersAmb : List Player := [⟨1, "zed", none, some 10⟩]

/-- Roster under which `exDocC2` scores 1-0 (first mapping wins strictly,
via the substring rule of the scoring pass only). -/
def exPlayersClear : List Player := [⟨1, "xcarlx", none, some 10⟩]

/-- Team rosters for the C3 side-mapping example: four players per team. -/
def exPlayersC3 : List Player :=
  [⟨1, "alice", none, some 10⟩, ⟨2, "bob", none, some 10⟩,
   ⟨3, "cara", none, some 10⟩, ⟨4, "dina", none, some 10⟩,
   ⟨5, "fred", none, some 20⟩, ⟨6, "gina", none, some 20⟩,
   ⟨7, "hank", none, some 20⟩, ⟨8, "jack", none, some 20⟩]

/-- Helper for building a bare player-summary segment. -/
def mkPSeg (tid n : String) : Segment :=
  Segment.player ⟨some tid, some n, none, none, some 0, some 0, some 0, some 0⟩

/-- Telemetry for the C3 example: external side Red fields four players of
team 2's roster, side Blue four players of team 1's roster. -/
def exSegsC3 : List Segment :=
  [Segment.team ⟨some "Red", 13⟩, Segment.team ⟨some "Blue", 5⟩,
   mkPSeg "Red" "fred#1", mkPSeg "Red" "gina#1", mkPSeg "Red" "hank#1", mkPSeg "Red" "jack#1",
   mkPSeg "Blue" "alice#1", mkPSeg "Blue" "bob#1", mkPSeg "Blue" "cara#1", mkPSeg "Blue" "dina#1"]

/-- Document with two player-summary segments whose identifiers are equal
up to case, for the C10 witness. -/
def exDocC10 : Doc :=
  ⟨[Segment.player ⟨some "Red", some "Dup#1", none, some "Jett", some 111, some 1, some 1, some 1⟩,
    Segment.player ⟨some "Red", some "dup#1", none, some "Omen", some 222, some 2, some 2, some 2⟩],
   some "Bind"⟩

/-- Player table for the C4 counterexample: one internal player whose name
two distinct external identifiers both fallback-match. -/
def tabC4 : List Player := [⟨1, "Carl", none, some 30⟩]

/-- Two suggestion entries on side 1 that both resolved to the name
`"Carl"`. -/
def statsC4 : List (String × Sugg) :=
  [("carl#na1", ⟨some "Carl", "Carl#NA1", 200, 10, 5, 3, some "Jett", 1, 100⟩),
   ("carl#eu2", ⟨some "Carl", "Carl#EU2", 150, 7, 6, 1, some "Sova", 1, 100⟩)]

/-- Player table for the C6 counterexample: roster ids 1 and 8 (an id at
and an id below the table size) plus a free agent. -/
def tabC6 : List Player :=
  [⟨1, "ann", none, some 10⟩, ⟨8, "bob", none, some 10⟩, ⟨9, "sue", none, none⟩]

/-- One substitute entry on side 1 played by a free agent. -/
def statsC6 : List (String × Sugg) :=
  [("sue#1", ⟨some "sue", "sue#1", 100, 1, 2, 3, some "Omen", 1, 100⟩)]

/-- Player table for the C7 witness: three starters and one roster player
missing, plus a player of the other team appearing as a substitute. -/
def tabC7 : List Player :=
  [⟨1, "ann", none, some 10⟩, ⟨2, "bea", none, some 10⟩, ⟨3, "cay", none, some 10⟩,
   ⟨4, "dee", none, some 10⟩, ⟨9, "carl", none, some 20⟩]

/-- Stats for the C7 witness: three starters of team 1 and one substitute
whose default team differs. -/
def statsC7 : List (String × Sugg) :=
  [("ann#x", ⟨some "ann", "ann#x", 1, 1, 1, 1, some "Jett", 1, 100⟩),
   ("bea#x", ⟨some "bea", "bea#x", 2, 2, 2, 2, some "Sova", 1, 100⟩),
   ("cay#x", ⟨some "cay", "cay#x", 3, 3, 3, 3, some "Omen", 1, 100⟩),
   ("carl#na1", ⟨some "carl", "Carl#NA1", 4, 4, 4, 4, some "Raze", 1, 100⟩)]

/-- Player table for the C9 counterexample: `eve` (default team 10) plays
on side 2, while `frank` (default team 30) substitutes on side 1. -/
def tabC9 : List Player :=
  [⟨5, "eve", none, some 10⟩, ⟨6, "frank", none, some 30⟩, ⟨7, "gina", none, some 20⟩]

/-- Stats for the C9 counterexample. -/
def statsC9 : List (String × Sugg) :=
  [("frank#x", ⟨some "frank", "frank#x", 100, 1, 2, 3, some "Omen", 1, 100⟩),
   ("eve#x", ⟨some "eve", "eve#x", 90, 2, 3, 4, some "Raze", 2, 100⟩)]

lemma dictGet_dictSet {α : Type} (d : List (String × α)) (k : String) (v : α) (q : String) :
    dictGet (dictSet d k v) q = if q = k then some v else dictGet d q := by
  induction d with
  | nil =>
    by_cases h : q = k <;> simp [dictSet, dictGet, List.find?, h, Ne.symm]
  | cons kv rest ih =>
    by_cases hk : kv.1 = k
    · by_cases hq : q = k
      · subst hq; simp [dictSet, dictGet, List.find?, hk]
      · have h1 : ¬ (k = q) := fun h => hq h.symm
        have h2 : ¬ (kv.1 = q) := by rw [hk]; exact h1
        simp [dictSet, dictGet, List.find?, hk, h1, h2, hq]
    · by_cases hfst : kv.1 = q
      · have hq : ¬ (q = k) := fun h => hk (h ▸ hfst)
        simp [dictSet, dictGet, List.find?, hk, hfst, hq]
      · simp [dictSet, dictGet, List.find?, hk, hfst] at ih ⊢
        exact ih

lemma dictSet_keys {α : Type} (d : List (String × α)) (k : String) (v : α) :
    (dictSet d k v).map Prod.fst = d.map Prod.fst ∨
      (dictSet d k v).map Prod.fst = d.map Prod.fst ++ [k] := by
  induction d with
  | nil => right; simp [dictSet]
  | cons kv rest ih =>
    by_cases hk : kv.1 = k
    · left; simp [dictSet, hk]
    · rcases ih with h | h
      · left; simp [dictSet, hk, h]
      · right; simp [dictSet, hk, h]

lemma dictSet_nodup_keys {α : Type} (d : List (String × α)) (k : String) (v : α)
    (hd : (d.map Prod.fst).Nodup) : ((dictSet d k v).map Prod.fst).Nodup := by
  induction d with
  | nil => simp [dictSet]
  | cons kv rest ih =>
    by_cases hk : kv.1 = k
    · simp only [dictSet, hk, if_true, List.map_cons]
      simpa [hk] using hd
    · simp only [dictSet, hk, if_false, List.map_cons, List.nodup_cons] at hd ⊢
      refine ⟨?_, ih hd.2⟩
      intro hmem
      rcases dictSet_keys rest k v with h | h
      · exact hd.1 (h ▸ hmem)
      · rw [h] at hmem
        rcases List.mem_append.mp hmem with h1 | h1
        · exact hd.1 h1
        · exact hk (by simpa using h1)

lemma findSome?_isSome_iff {ι α : Type} (g : ι → Option α) (l : List ι) :
    (l.findSome? g).isSome = true ↔ ∃ x ∈ l, (g x).isSome = true := by
  induction l with
  | nil => simp [List.findSome?]
  | cons x rest ih =>
    cases hx : g x with
    | none => simp [List.findSome?, hx, ih]
    | some v => simp [List.findSome?, hx]

lemma findSome?_eq_some {ι α : Type} (g : ι → Option α) (l : List ι) (v : α)
    (h : l.findSome? g = some v) : ∃ x ∈ l, g x = some v := by
  induction l with
  | nil => simp [List.findSome?] at h
  | cons x rest ih =>
    cases hx : g x with
    | none =>
      rw [List.findSome?_cons, hx] at h
      rcases ih h with ⟨y, hy, hgy⟩
      exact ⟨y, List.mem_cons_of_mem x hy, hgy⟩
    | some w =>
      simp only [List.findSome?_cons, hx] at h
      exact ⟨x, List.mem_cons_self x rest, by rw [hx, h]⟩

lemma buildDict_get {ι α : Type} (f : ι → Option (String × α)) (l : List ι) (q : String) :
    ∀ acc,
      dictGet (buildDict f l acc) q =
        match l.reverse.findSome?
            (fun x =>
              match f x with
              | some kv => if kv.1 = q then some kv.2 else none
              | none => none) with
        | some v => some v
        | none => dictGet acc q := by
  induction l with
  | nil => intro acc; simp [buildDict]
  | cons x rest ih =>
    intro acc
    have hstep : buildDict f (x :: rest) acc =
        buildDict f rest
          (match f x with
           | some kv => dictSet acc kv.1 kv.2
           | none => acc) := by
      simp [buildDict]
    rw [hstep, ih]
    have happ : (x :: rest).reverse = rest.reverse ++ [x] := by simp
    rw [happ, List.findSome?_append]
    cases hfind : rest.reverse.findSome?
        (fun x =>
          match f x with
          | some kv => if kv.1 = q then some kv.2 else none
          | none => none) with
    | some v => simp
    | none =>
      simp only [Option.none_orElse]
      cases hfx : f x with
      | none => simp [List.findSome?, hfx]
      | some kv =>
        by_cases hk : kv.1 = q
        · simp [List.findSome?, hfx, hk, dictGet_dictSet]
        · have hq : ¬ (q = kv.1) := fun h => hk h.symm
          simp [List.findSome?, hfx, hk, hq, dictGet_dictSet]

lemma buildDict_nodup_keys {ι α : Type} (f : ι → Option (String × α)) (l : List ι) :
    ∀ acc, (acc.map Prod.fst).Nodup → ((buildDict f l acc).map Prod.fst).Nodup := by
  induction l with
  | nil => intro acc h; simpa [buildDict] using h
  | cons x rest ih =>
    intro acc h
    have hstep : buildDict f (x :: rest) acc =
        buildDict f rest
          (match f x with
           | some kv => dictSet acc kv.1 kv.2
           | none => acc) := by
      simp [buildDict]
    rw [hstep]
    apply ih
    cases hfx : f x with
    | none => simpa using h
    | some kv => simpa using dictSet_nodup_keys acc kv.1 kv.2 h

lemma riot_id_to_name_eq (players : List Player) :
    riot_id_to_name players = buildDict riotKeyOf players [] := by
  unfold riot_id_to_name buildDict
  congr 1
  funext d p
  cases h : p.riotId <;> simp [riotKeyOf, h]

lemma name_to_name_eq (players : List Player) :
    name_to_name players = buildDict nameKeyOf players [] := rfl

lemma buildDict_get_isSome {ι α : Type} (f : ι → Option (String × α)) (l : List ι) (q : String) :
    (dictGet (buildDict f l []) q).isSome = true ↔ ∃ x ∈ l, ∃ v, f x = some (q, v) := by
  rw [buildDict_get]
  cases hfind : l.reverse.findSome?
      (fun x =>
        match f x with
        | some kv => if kv.1 = q then some kv.2 else none
        | none => none) with
  | some v =>
    simp only [Option.isSome_some, true_iff]
    rcases findSome?_eq_some _ _ _ hfind with ⟨x, hx, hgx⟩
    refine ⟨x, List.mem_reverse.mp hx, ?_⟩
    cases hfx : f x with
    | none => simp [hfx] at hgx
    | some kv =>
      by_cases hk : kv.1 = q
      · refine ⟨kv.2, ?_⟩
        rw [← hk]
      · simp [hfx, hk] at hgx
  | none =>
    simp only [dictGet, List.find?_nil, Option.map_none', Option.isSome_none,
      Bool.false_eq_true, false_iff]
    rintro ⟨x, hx, v, hfx⟩
    have : (l.reverse.findSome?
        (fun x =>
          match f x with
          | some kv => if kv.1 = q then some kv.2 else none
          | none => none)).isSome = true := by
      rw [findSome?_isSome_iff]
      exact ⟨x, List.mem_reverse.mpr hx, by simp [hfx]⟩
    rw [hfind] at this
    simp at this

lemma buildDict_get_value {ι α : Type} (f : ι → Option (String × α)) (l : List ι) (q : String)
    (v : α) (h : dictGet (buildDict f l []) q = some v) : ∃ x ∈ l, f x = some (q, v) := by
  rw [buildDict_get] at h
  cases hfind : l.reverse.findSome?
      (fun x =>
        match f x with
        | some kv => if kv.1 = q then some kv.2 else none
        | none => none) with
  | none => rw [hfind] at h; simp [dictGet] at h
  | some w =>
    rw [hfind] at h
    simp only [Option.some.injEq] at h
    subst h
    rcases findSome?_eq_some _ _ _ hfind with ⟨x, hx, hgx⟩
    refine ⟨x, List.mem_reverse.mp hx, ?_⟩
    cases hfx : f x with
    | none => simp [hfx] at hgx
    | some kv =>
      by_cases hk : kv.1 = q
      · simp only [hfx, hk, if_true, Option.some.injEq] at hgx
        rw [← hk, ← hgx]
      · simp [hfx, hk] at hgx

lemma riot_get_isSome (players : List Player) (q : String) :
    (dictGet (riot_id_to_name players) q).isSome = true ↔
      ∃ p ∈ players, p.riotId.map (fun r => pyLower (pyStrip r)) = some q := by
  rw [riot_id_to_name_eq, buildDict_get_isSome]
  constructor
  · rintro ⟨p, hp, v, hfp⟩
    refine ⟨p, hp, ?_⟩
    cases hr : p.riotId with
    | none => simp [riotKeyOf, hr] at hfp
    | some r =>
      simp only [riotKeyOf, hr, Option.map_some', Option.some.injEq, Prod.mk.injEq] at hfp
      simp [hr, hfp.1]
  · rintro ⟨p, hp, hkey⟩
    cases hr : p.riotId with
    | none => simp [hr] at hkey
    | some r =>
      simp only [hr, Option.map_some', Option.some.injEq] at hkey
      exact ⟨p, hp, p.name, by simp [riotKeyOf, hr, hkey]⟩

lemma riot_get_value (players : List Player) (q v : String)
    (h : dictGet (riot_id_to_name players) q = some v) : ∃ p ∈ players, p.name = v := by
  rw [riot_id_to_name_eq] at h
  rcases buildDict_get_value _ _ _ _ h with ⟨p, hp, hfp⟩
  cases hr : p.riotId with
  | none => simp [riotKeyOf, hr] at hfp
  | some r =>
    simp only [riotKeyOf, hr, Option.map_some', Option.some.injEq, Prod.mk.injEq] at hfp
    exact ⟨p, hp, hfp.2⟩

lemma name_get_isSome (players : List Player) (q : String) :
    (dictGet (name_to_name players) q).isSome = true ↔
      ∃ p ∈ players, pyLower (pyStrip p.name) = q := by
  rw [name_to_name_eq, buildDict_get_isSome]
  constructor
  · rintro ⟨p, hp, v, hfp⟩
    simp only [nameKeyOf, Option.some.injEq, Prod.mk.injEq] at hfp
    exact ⟨p, hp, hfp.1⟩
  · rintro ⟨p, hp, hkey⟩
    exact ⟨p, hp, p.name, by simp [nameKeyOf, hkey]⟩

lemma name_get_value (players : List Player) (q v : String)
    (h : dictGet (name_to_name players) q = some v) : ∃ p ∈ players, p.name = v := by
  rw [name_to_name_eq] at h
  rcases buildDict_get_value _ _ _ _ h with ⟨p, hp, hfp⟩
  simp only [nameKeyOf, Option.some.injEq, Prod.mk.injEq] at hfp
  exact ⟨p, hp, hfp.2⟩

lemma matchedName_value (players : List Player) (rid v : String)
    (h : matchedName players rid = some v) : ∃ p ∈ players, p.name = v := by
  unfold matchedName at h
  by_cases h1 : isTruthyS (dictGet (riot_id_to_name players) (pyLower rid))
  · simp only [h1, if_true] at h
    exact riot_get_value players _ v h
  · simp only [h1, if_false] at h
    by_cases h2 : isTruthyS (dictGet (name_to_name players) (pyLower (hashHead rid)))
    · simp only [h2, if_true] at h
      exact name_get_value players _ v h
    · simp only [h2, if_false] at h
      exact name_get_value players _ v h

lemma isTruthyS_of_isSome_ne (m : Option String) (hs : m.isSome = true)
    (hv : ∀ v, m = some v → v ≠ "") : isTruthyS m = true := by
  cases m with
  | none => simp at hs
  | some v => simpa [isTruthyS] using hv v rfl

lemma isSome_of_isTruthyS (m : Option String) (h : isTruthyS m = true) : m.isSome = true := by
  cases m with
  | none => simp [isTruthyS] at h
  | some v => simp

lemma riot_truthy_iff (players : List Player) (q : String)
    (hn : ∀ p ∈ players, p.name ≠ "") :
    isTruthyS (dictGet (riot_id_to_name players) q) = (dictGet (riot_id_to_name players) q).isSome := by
  cases hm : dictGet (riot_id_to_name players) q with
  | none => simp [isTruthyS]
  | some v =>
    rcases riot_get_value players q v hm with ⟨p, hp, hname⟩
    simp [isTruthyS, hname ▸ hn p hp]

lemma name_truthy_iff (players : List Player) (q : String)
    (hn : ∀ p ∈ players, p.name ≠ "") :
    isTruthyS (dictGet (name_to_name players) q) = (dictGet (name_to_name players) q).isSome := by
  cases hm : dictGet (name_to_name players) q with
  | none => simp [isTruthyS]
  | some v =>
    rcases name_get_value players q v hm with ⟨p, hp, hname⟩
    simp [isTruthyS, hname ▸ hn p hp]

lemma matchedName_isSome_iff (players : List Player) (rid : String)
    (hn : ∀ p ∈ players, p.name ≠ "") :
    (matchedName players rid).isSome = true ↔
      (∃ p ∈ players, p.riotId.map (fun r => pyLower (pyStrip r)) = some (pyLower rid)) ∨
      (∃ p ∈ players, pyLower (pyStrip p.name) = pyLower (hashHead rid)) ∨
      (∃ p ∈ players, pyLower (pyStrip p.name) = pyLower rid) := by
  unfold matchedName
  by_cases h1 : isTruthyS (dictGet (riot_id_to_name players) (pyLower rid))
  · simp only [h1, if_true]
    have hs0 := isSome_of_isTruthyS _ h1
    have hs := (riot_get_isSome players (pyLower rid)).mp hs0
    exact ⟨fun _ => Or.inl hs, fun _ => hs0⟩
  · have hs1 : ¬ (dictGet (riot_id_to_name players) (pyLower rid)).isSome = true := by
      rw [← riot_truthy_iff players _ hn]; exact h1
    simp only [h1, if_false]
    by_cases h2 : isTruthyS (dictGet (name_to_name players) (pyLower (hashHead rid)))
    · simp only [h2, if_true]
      have hs0 := isSome_of_isTruthyS _ h2
      have hs := (name_get_isSome players (pyLower (hashHead rid))).mp hs0
      exact ⟨fun _ => Or.inr (Or.inl hs), fun _ => hs0⟩
    · have hs2 : ¬ (dictGet (name_to_name players) (pyLower (hashHead rid))).isSome = true := by
        rw [← name_truthy_iff players _ hn]; exact h2
      simp only [h2, if_false]
      simp only [Bool.false_eq_true, if_false]
      rw [riot_get_isSome] at hs1
      rw [name_get_isSome] at hs2
      rw [name_get_isSome]
      constructor
      · intro h; exact Or.inr (Or.inr h)
      · rintro (h | h | h)
        · exact absurd h hs1
        · exact absurd h hs2
        · exact h

lemma matchedName_truthy_iff (players : List Player) (rid : String)
    (hn : ∀ p ∈ players, p.name ≠ "") :
    isTruthyS (matchedName players rid) = (matchedName players rid).isSome := by
  cases hm : matchedName players rid with
  | none => simp [isTruthyS]
  | some v =>
    rcases matchedName_value players rid v hm with ⟨p, hp, hname⟩
    simp [isTruthyS, hname ▸ hn p hp]

lemma buildSuggestions_eq (players : List Player) (tt1 : Option String) (segs : List Segment) :
    buildSuggestions players tt1 segs = buildDict (suggKeyOf players tt1) segs [] := by
  unfold buildSuggestions buildDict
  congr 1
  funext d seg
  cases seg with
  | team t => simp [suggKeyOf]
  | other => simp [suggKeyOf]
  | player p =>
    cases h : rawRid p with
    | none => simp [suggKeyOf, h]
    | some s =>
      by_cases hs : s = ""
      · simp [suggKeyOf, h, hs]
      · by_cases ht : pyStrip s = "" <;> simp [suggKeyOf, h, hs, ht]

lemma get?_tail_succ {α : Type} (l : List α) (n : Nat) : l.tail.get? n = l.get? (n + 1) := by
  cases l <;> simp

lemma head?_eq_get?_zero {α : Type} (l : List α) : l.head? = l.get? 0 := by
  cases l <;> simp

lemma assignRows_length (t1 t2 : Nat) (table : List Player) :
    ∀ (stats : List (String × Sugg)) (q1 q2 : List Nat),
      (assignRows t1 t2 table stats q1 q2).length = stats.length := by
  intro stats
  induction stats with
  | nil => intro q1 q2; simp [assignRows]
  | cons ks rest ih =>
    intro q1 q2
    rcases hres : resolveP table ks.2 with ⟨o, dt⟩
    cases o with
    | none => simp [assignRows, hres, ih]
    | some p =>
      by_cases hst : dt = some (if ks.2.teamNum = 1 then t1 else t2)
      · simp [assignRows, hres, hst, ih]
      · by_cases hside : ks.2.teamNum = 1
        · simp only [hside, if_true] at hst
          simp [assignRows, hres, hst, hside, ih]
        · simp only [hside, if_false] at hst
          simp [assignRows, hres, hst, hside, ih]

lemma assignRows_map_teamPid (t1 t2 : Nat) (table : List Player) :
    ∀ (stats : List (String × Sugg)) (q1 q2 : List Nat),
      (assignRows t1 t2 table stats q1 q2).map (fun r => (r.team_id, r.player_id)) =
        stats.map (fun ks => ((if ks.2.teamNum = 1 then t1 else t2), (resolveP table ks.2).1)) := by
  intro stats
  induction stats with
  | nil => intro q1 q2; simp [assignRows]
  | cons ks rest ih =>
    intro q1 q2
    rcases hres : resolveP table ks.2 with ⟨o, dt⟩
    cases o with
    | none => simp [assignRows, hres, ih]
    | some p =>
      by_cases hst : dt = some (if ks.2.teamNum = 1 then t1 else t2)
      · simp [assignRows, hres, hst, ih]
      · by_cases hside : ks.2.teamNum = 1
        · simp only [hside, if_true] at hst
          simp [assignRows, hres, hst, hside, ih]
        · simp only [hside, if_false] at hst
          simp [assignRows, hres, hst, hside, ih]

lemma subsBefore1_cons (t1 t2 : Nat) (table : List Player) (ks : String × Sugg)
    (rest : List (String × Sugg)) :
    subsBefore1 t1 t2 table (ks :: rest) =
      (if entry_is_sub t1 t2 table ks.2 && ks.2.teamNum = 1 then 1 else 0) +
        subsBefore1 t1 t2 table rest := by
  by_cases h : entry_is_sub t1 t2 table ks.2 && ks.2.teamNum = 1
  · simp [subsBefore1, List.filter_cons, h, Nat.add_comm]
  · simp [subsBefore1, List.filter_cons, h]

lemma subsBefore2_cons (t1 t2 : Nat) (table : List Player) (ks : String × Sugg)
    (rest : List (String × Sugg)) :
    subsBefore2 t1 t2 table (ks :: rest) =
      (if entry_is_sub t1 t2 table ks.2 && !(ks.2.teamNum = 1) then 1 else 0) +
        subsBefore2 t1 t2 table rest := by
  by_cases h : entry_is_sub t1 t2 table ks.2 && !(ks.2.teamNum = 1)
  · simp [subsBefore2, List.filter_cons, h, Nat.add_comm]
  · simp [subsBefore2, List.filter_cons, h]

lemma assignRows_cons_unres (t1 t2 : Nat) (table : List Player) (ks : String × Sugg)
    (rest : List (String × Sugg)) (q1 q2 : List Nat) (dt : Option Nat)
    (hres : resolveP table ks.2 = (none, dt)) :
    assignRows t1 t2 table (ks :: rest) q1 q2 =
      ⟨(if ks.2.teamNum = 1 then t1 else t2), none, ks.2.agent, ks.2.acs, ks.2.k, ks.2.d,
          ks.2.a, 0, none⟩ :: assignRows t1 t2 table rest q1 q2 := by
  simp [assignRows, hres]

lemma assignRows_cons_starter (t1 t2 : Nat) (table : List Player) (ks : String × Sugg)
    (rest : List (String × Sugg)) (q1 q2 : List Nat) (p : Nat) (dt : Option Nat)
    (hres : resolveP table ks.2 = (some p, dt))
    (hst : dt = some (if ks.2.teamNum = 1 then t1 else t2)) :
    assignRows t1 t2 table (ks :: rest) q1 q2 =
      ⟨(if ks.2.teamNum = 1 then t1 else t2), some p, ks.2.agent, ks.2.acs, ks.2.k, ks.2.d,
          ks.2.a, 0, none⟩ :: assignRows t1 t2 table rest q1 q2 := by
  by_cases hside : ks.2.teamNum = 1
  · simp only [hside, if_true] at hst ⊢
    simp [assignRows, hres, hst, hside]
  · simp only [hside, if_false] at hst ⊢
    simp [assignRows, hres, hst, hside]

lemma assignRows_cons_sub1 (t1 t2 : Nat) (table : List Player) (ks : String × Sugg)
    (rest : List (String × Sugg)) (q1 q2 : List Nat) (p : Nat) (dt : Option Nat)
    (hres : resolveP table ks.2 = (some p, dt))
    (hst : ¬ dt = some t1) (hside : ks.2.teamNum = 1) :
    assignRows t1 t2 table (ks :: rest) q1 q2 =
      ⟨t1, some p, ks.2.agent, ks.2.acs, ks.2.k, ks.2.d, ks.2.a, 1, q1.head?⟩ ::
        assignRows t1 t2 table rest q1.tail q2 := by
  simp [assignRows, hres, hst, hside]

lemma assignRows_cons_sub2 (t1 t2 : Nat) (table : List Player) (ks : String × Sugg)
    (rest : List (String × Sugg)) (q1 q2 : List Nat) (p : Nat) (dt : Option Nat)
    (hres : resolveP table ks.2 = (some p, dt))
    (hst : ¬ dt = some t2) (hside : ¬ ks.2.teamNum = 1) :
    assignRows t1 t2 table (ks :: rest) q1 q2 =
      ⟨t2, some p, ks.2.agent, ks.2.acs, ks.2.k, ks.2.d, ks.2.a, 1, q2.head?⟩ ::
        assignRows t1 t2 table rest q1 q2.tail := by
  simp [assignRows, hres, hst, hside]

lemma subsBefore1_nil (t1 t2 : Nat) (table : List Player) :
    subsBefore1 t1 t2 table [] = 0 := rfl

lemma subsBefore2_nil (t1 t2 : Nat) (table : List Player) :
    subsBefore2 t1 t2 table [] = 0 := rfl

lemma assignRows_get (t1 t2 : Nat) (table : List Player) :
    ∀ (stats : List (String × Sugg)) (q1 q2 : List Nat) (i : Nat) (ks : String × Sugg),
      stats.get? i = some ks →
      (assignRows t1 t2 table stats q1 q2).get? i = some
        { team_id := if ks.2.teamNum = 1 then t1 else t2
          player_id := (resolveP table ks.2).1
          agent := ks.2.agent
          acs := ks.2.acs
          kills := ks.2.k
          deaths := ks.2.d
          assists := ks.2.a
          is_sub := if entry_is_sub t1 t2 table ks.2 then 1 else 0
          subbed_for_id :=
            if entry_is_sub t1 t2 table ks.2 then
              (if ks.2.teamNum = 1 then
                q1.get? (subsBefore1 t1 t2 table (stats.take i))
              else q2.get? (subsBefore2 t1 t2 table (stats.take i)))
            else none } := by
  intro stats
  induction stats with
  | nil => intro q1 q2 i ks h; simp at h
  | cons ks0 rest ih =>
    intro q1 q2 i ks h
    rcases hres : resolveP table ks0.2 with ⟨o, dt⟩
    cases i with
    | zero =>
      simp only [List.get?_cons_zero, Option.some.injEq] at h
      subst h
      cases o with
      | none =>
        have hsub0 : entry_is_sub t1 t2 table ks0.2 = false := by
          unfold entry_is_sub; rw [hres]
        rw [assignRows_cons_unres t1 t2 table ks0 rest q1 q2 dt hres]
        simp [hsub0, hres]
      | some p =>
        have hsub0 : entry_is_sub t1 t2 table ks0.2 =
            !(dt = some (if ks0.2.teamNum = 1 then t1 else t2)) := by
          unfold entry_is_sub; rw [hres]
        by_cases hst : dt = some (if ks0.2.teamNum = 1 then t1 else t2)
        · rw [assignRows_cons_starter t1 t2 table ks0 rest q1 q2 p dt hres hst]
          simp [hsub0, hst, hres]
        · by_cases hside : ks0.2.teamNum = 1
          · simp only [hside, if_true] at hst hsub0
            rw [assignRows_cons_sub1 t1 t2 table ks0 rest q1 q2 p dt hres hst hside]
            simp [hsub0, hst, hside, hres, head?_eq_get?_zero, subsBefore1_nil]
          · simp only [hside, if_false] at hst hsub0
            rw [assignRows_cons_sub2 t1 t2 table ks0 rest q1 q2 p dt hres hst hside]
            simp [hsub0, hst, hside, hres, head?_eq_get?_zero, subsBefore2_nil]
    | succ i =>
      simp only [List.get?_cons_succ] at h
      cases o with
      | none =>
        have hsub0 : entry_is_sub t1 t2 table ks0.2 = false := by
          unfold entry_is_sub; rw [hres]
        rw [assignRows_cons_unres t1 t2 table ks0 rest q1 q2 dt hres]
        simp only [List.get?_cons_succ, List.take_succ_cons]
        rw [ih q1 q2 i ks h]
        simp [subsBefore1_cons, subsBefore2_cons, hsub0]
      | some p =>
        by_cases hst : dt = some (if ks0.2.teamNum = 1 then t1 else t2)
        · have hsub0 : entry_is_sub t1 t2 table ks0.2 = false := by
            unfold entry_is_sub; rw [hres]; simp [hst]
          rw [assignRows_cons_starter t1 t2 table ks0 rest q1 q2 p dt hres hst]
          simp only [List.get?_cons_succ, List.take_succ_cons]
          rw [ih q1 q2 i ks h]
          simp [subsBefore1_cons, subsBefore2_cons, hsub0]
        · have hsub0 : entry_is_sub t1 t2 table ks0.2 = true := by
            unfold entry_is_sub; rw [hres]; simp [hst]
          by_cases hside : ks0.2.teamNum = 1
          · simp only [hside, if_true] at hst
            rw [assignRows_cons_sub1 t1 t2 table ks0 rest q1 q2 p dt hres hst hside]
            simp only [List.get?_cons_succ, List.take_succ_cons]
            rw [ih q1.tail q2 i ks h]
            simp only [subsBefore1_cons, subsBefore2_cons, hsub0, hside]
            by_cases hj : entry_is_sub t1 t2 table ks.2
            · by_cases hs2 : ks.2.teamNum = 1
              · simp [hj, hs2, get?_tail_succ, Nat.add_comm]
              · simp [hj, hs2]
            · simp [hj]
          · simp only [hside, if_false] at hst
            rw [assignRows_cons_sub2 t1 t2 table ks0 rest q1 q2 p dt hres hst hside]
            simp only [List.get?_cons_succ, List.take_succ_cons]
            rw [ih q1 q2.tail i ks h]
            simp only [subsBefore1_cons, subsBefore2_cons, hsub0, hside]
            by_cases hj : entry_is_sub t1 t2 table ks.2
            · by_cases hs2 : ks.2.teamNum = 1
              · simp [hj, hs2]
              · simp [hj, hs2, get?_tail_succ, Nat.add_comm]
            · simp [hj]

lemma assignRows_sf_mem (t1 t2 : Nat) (table : List Player) :
    ∀ (stats : List (String × Sugg)) (q1 q2 : List Nat) (r : StatRow),
      r ∈ assignRows t1 t2 table stats q1 q2 → ∀ m, r.subbed_for_id = some m →
      (r.team_id = t1 ∧ m ∈ q1) ∨ (r.team_id = t2 ∧ m ∈ q2) := by
  intro stats
  induction stats with
  | nil => intro q1 q2 r hr; simp [assignRows] at hr
  | cons ks rest ih =>
    intro q1 q2 r hr m hm
    rcases hres : resolveP table ks.2 with ⟨o, dt⟩
    cases o with
    | none =>
      rw [assignRows_cons_unres t1 t2 table ks rest q1 q2 dt hres] at hr
      rcases List.mem_cons.mp hr with h | h
      · subst h; simp at hm
      · exact ih q1 q2 r h m hm
    | some p =>
      by_cases hst : dt = some (if ks.2.teamNum = 1 then t1 else t2)
      · rw [assignRows_cons_starter t1 t2 table ks rest q1 q2 p dt hres hst] at hr
        rcases List.mem_cons.mp hr with h | h
        · subst h; simp at hm
        · exact ih q1 q2 r h m hm
      · by_cases hside : ks.2.teamNum = 1
        · simp only [hside, if_true] at hst
          rw [assignRows_cons_sub1 t1 t2 table ks rest q1 q2 p dt hres hst hside] at hr
          rcases List.mem_cons.mp hr with h | h
          · subst h
            simp only at hm
            left
            refine ⟨rfl, ?_⟩
            cases q1 with
            | nil => simp at hm
            | cons a q1 => simp at hm; simp [hm]
          · rcases ih q1.tail q2 r h m hm with ⟨ht, hmem⟩ | ⟨ht, hmem⟩
            · exact Or.inl ⟨ht, List.mem_of_mem_tail hmem⟩
            · exact Or.inr ⟨ht, hmem⟩
        · simp only [hside, if_false] at hst
          rw [assignRows_cons_sub2 t1 t2 table ks rest q1 q2 p dt hres hst hside] at hr
          rcases List.mem_cons.mp hr with h | h
          · subst h
            simp only at hm
            right
            refine ⟨rfl, ?_⟩
            cases q2 with
            | nil => simp at hm
            | cons a q2 => simp at hm; simp [hm]
          · rcases ih q1 q2.tail r h m hm with ⟨ht, hmem⟩ | ⟨ht, hmem⟩
            · exact Or.inl ⟨ht, hmem⟩
            · exact Or.inr ⟨ht, List.mem_of_mem_tail hmem⟩

lemma assignRows_sf_nodup (t1 t2 : Nat) (table : List Player) :
    ∀ (stats : List (String × Sugg)) (q1 q2 : List Nat),
      q1.Nodup → q2.Nodup → (∀ x ∈ q1, x ∉ q2) →
      ((assignRows t1 t2 table stats q1 q2).filterMap (fun r => r.subbed_for_id)).Nodup := by
  intro stats
  induction stats with
  | nil => intro q1 q2 _ _ _; simp [assignRows]
  | cons ks rest ih =>
    intro q1 q2 hq1 hq2 hdisj
    rcases hres : resolveP table ks.2 with ⟨o, dt⟩
    cases o with
    | none =>
      rw [assignRows_cons_unres t1 t2 table ks rest q1 q2 dt hres]
      simpa using ih q1 q2 hq1 hq2 hdisj
    | some p =>
      by_cases hst : dt = some (if ks.2.teamNum = 1 then t1 else t2)
      · rw [assignRows_cons_starter t1 t2 table ks rest q1 q2 p dt hres hst]
        simpa using ih q1 q2 hq1 hq2 hdisj
      · by_cases hside : ks.2.teamNum = 1
        · simp only [hside, if_true] at hst
          rw [assignRows_cons_sub1 t1 t2 table ks rest q1 q2 p dt hres hst hside]
          cases q1 with
          | nil =>
            simpa using ih [] q2 List.nodup_nil hq2 (by simp)
          | cons a q1 =>
            have hq1' : q1.Nodup := (List.nodup_cons.mp hq1).2
            have hna : a ∉ q1 := (List.nodup_cons.mp hq1).1
            have hdisj' : ∀ x ∈ q1, x ∉ q2 := fun x hx =>
              hdisj x (List.mem_cons_of_mem a hx)
            have htail := ih q1 q2 hq1' hq2 hdisj'
            simp only [List.filterMap_cons, List.head?_cons, List.tail_cons]
            rw [List.nodup_cons]
            refine ⟨?_, htail⟩
            intro hmem
            rcases List.mem_filterMap.mp hmem with ⟨r, hr, hsf⟩
            rcases assignRows_sf_mem t1 t2 table rest q1 q2 r hr a hsf with
              ⟨_, hmem1⟩ | ⟨_, hmem2⟩
            · exact hna hmem1
            · exact hdisj a (List.mem_cons_self a q1) hmem2
        · simp only [hside, if_false] at hst
          rw [assignRows_cons_sub2 t1 t2 table ks rest q1 q2 p dt hres hst hside]
          cases q2 with
          | nil =>
            simpa using ih q1 [] hq1 List.nodup_nil (by simp)
          | cons a q2 =>
            have hq2' : q2.Nodup := (List.nodup_cons.mp hq2).2
            have hna : a ∉ q2 := (List.nodup_cons.mp hq2).1
            have hdisj' : ∀ x ∈ q1, x ∉ q2 := fun x hx h =>
              hdisj x hx (List.mem_cons_of_mem a h)
            have htail := ih q1 q2 hq1 hq2' hdisj'
            simp only [List.filterMap_cons, List.head?_cons, List.tail_cons]
            rw [List.nodup_cons]
            refine ⟨?_, htail⟩
            intro hmem
            rcases List.mem_filterMap.mp hmem with ⟨r, hr, hsf⟩
            rcases assignRows_sf_mem t1 t2 table rest q1 q2 r hr a hsf with
              ⟨_, hmem1⟩ | ⟨_, hmem2⟩
            · exact hdisj a hmem1 (List.mem_cons_self a q2)
            · exact hna hmem2

/-- Invariant of the small-int tables arising below: slot `i` can only hold
the value `i` (true whenever every inserted element is below 8). -/
def slotInv (t : List (Option Nat)) : Prop :=
  ∀ i y, t.getD i none = some y → y = i

lemma pySetEmpty_length : pySetEmpty.length = 8 := by simp [pySetEmpty]

lemma pySetEmpty_getD (j : Nat) : pySetEmpty.getD j none = none := by
  simp only [pySetEmpty, List.getD_eq_getElem?_getD, List.getElem?_replicate]
  by_cases h : j < 8 <;> simp [h]

lemma pySetEmpty_inv : slotInv pySetEmpty := by
  intro i y h
  rw [pySetEmpty_getD] at h
  simp at h

lemma pySetInsertGo64 (x : Nat) (t : List (Option Nat)) (i perturb : Nat) :
    pySetInsertGo x 64 t i perturb =
      match t.getD i none with
      | none => t.set i (some x)
      | some y =>
        if y = x then t
        else pySetInsertGo x 63 t ((i * 5 + 1 + perturb / 32) % 8) (perturb / 32) := rfl

lemma pySetInsert_of_empty_slot (t : List (Option Nat)) (x : Nat)
    (hslot : t.getD (x % 8) none = none) :
    pySetInsert t x = t.set (x % 8) (some x) := by
  unfold pySetInsert
  rw [pySetInsertGo64, hslot]

lemma pySetInsert_of_hit (t : List (Option Nat)) (x y : Nat)
    (hslot : t.getD (x % 8) none = some y) (hy : y = x) :
    pySetInsert t x = t := by
  unfold pySetInsert
  rw [pySetInsertGo64, hslot]
  simp [hy]

lemma pySetInsert_getD (t : List (Option Nat)) (x : Nat) (hx : x < 8) (hlen : t.length = 8)
    (hinv : slotInv t) (j : Nat) :
    (pySetInsert t x).getD j none = if j = x then some x else t.getD j none := by
  have hxm : x % 8 = x := Nat.mod_eq_of_lt hx
  cases hslot : t.getD x none with
  | none =>
    rw [pySetInsert_of_empty_slot t x (by rw [hxm]; exact hslot), hxm]
    by_cases hj : j = x
    · subst hj
      simp only [List.getD_eq_getElem?_getD]
      rw [List.getElem?_set_self (by omega)]
      simp
    · simp only [List.getD_eq_getElem?_getD]
      rw [List.getElem?_set_ne (fun h => hj h.symm)]
      simp [hj]
  | some y =>
    have hy : y = x := hinv x y hslot
    rw [pySetInsert_of_hit t x y (by rw [hxm]; exact hslot) hy]
    by_cases hj : j = x
    · subst hj
      rw [if_pos rfl, hslot, hy]
    · rw [if_neg hj]

lemma pySetInsert_length (t : List (Option Nat)) (x : Nat) (hx : x < 8) (hlen : t.length = 8)
    (hinv : slotInv t) : (pySetInsert t x).length = 8 := by
  have hxm : x % 8 = x := Nat.mod_eq_of_lt hx
  cases hslot : t.getD x none with
  | none =>
    rw [pySetInsert_of_empty_slot t x (by rw [hxm]; exact hslot)]
    simp [hlen]
  | some y =>
    rw [pySetInsert_of_hit t x y (by rw [hxm]; exact hslot) (hinv x y hslot)]
    exact hlen

lemma pySetInsert_inv (t : List (Option Nat)) (x : Nat) (hx : x < 8) (hlen : t.length = 8)
    (hinv : slotInv t) : slotInv (pySetInsert t x) := by
  intro i y h
  rw [pySetInsert_getD t x hx hlen hinv i] at h
  by_cases hj : i = x
  · rw [if_pos hj] at h
    injection h with h1
    omega
  · rw [if_neg hj] at h
    exact hinv i y h

lemma foldl_pySetInsert_spec (xs : List Nat) :
    ∀ (t : List (Option Nat)), (∀ x ∈ xs, x < 8) → t.length = 8 → slotInv t →
      (xs.foldl pySetInsert t).length = 8 ∧ slotInv (xs.foldl pySetInsert t) ∧
      ∀ j, (xs.foldl pySetInsert t).getD j none =
        if j ∈ xs then some j else t.getD j none := by
  induction xs with
  | nil => intro t _ hlen hinv; exact ⟨hlen, hinv, by simp⟩
  | cons x rest ih =>
    intro t hx hlen hinv
    have hx0 : x < 8 := hx x (List.mem_cons_self x rest)
    have hxr : ∀ y ∈ rest, y < 8 := fun y hy => hx y (List.mem_cons_of_mem x hy)
    have hlen2 := pySetInsert_length t x hx0 hlen hinv
    have hinv2 := pySetInsert_inv t x hx0 hlen hinv
    rcases ih (pySetInsert t x) hxr hlen2 hinv2 with ⟨hl, hi, hget⟩
    rw [List.foldl_cons]
    refine ⟨hl, hi, ?_⟩
    intro j
    rw [hget j, pySetInsert_getD t x hx0 hlen hinv j]
    by_cases hjr : j ∈ rest
    · simp [hjr]
    · by_cases hjx : j = x
      · subst hjx; simp [hjr]
      · simp [hjr, hjx]

lemma mem_pySetElems (t : List (Option Nat)) (x : Nat) :
    x ∈ pySetElems t ↔ ∃ i, t.getD i none = some x := by
  unfold pySetElems
  rw [List.mem_filterMap]
  constructor
  · rintro ⟨a, ha, hid⟩
    have hax : a = some x := hid
    subst hax
    rcases List.mem_iff_getElem?.mp ha with ⟨i, hi⟩
    exact ⟨i, by simp [List.getD_eq_getElem?_getD, hi]⟩
  · rintro ⟨i, hi⟩
    simp only [List.getD_eq_getElem?_getD] at hi
    cases hg : t[i]? with
    | none => rw [hg] at hi; simp at hi
    | some a =>
      rw [hg] at hi
      simp only [Option.getD_some] at hi
      subst hi
      exact ⟨some x, List.getElem?_mem hg, rfl⟩

lemma filterMap_id_sorted (t : List (Option Nat)) :
    ∀ (base : Nat), (∀ i y, t.getD i none = some y → y = base + i) →
      List.Sorted (· < ·) (t.filterMap id) ∧ ∀ y ∈ t.filterMap id, base ≤ y := by
  induction t with
  | nil => intro base _; simp
  | cons o rest ih =>
    intro base hh
    have hrest : ∀ i y, rest.getD i none = some y → y = (base + 1) + i := by
      intro i y h
      have h2 : (o :: rest).getD (i + 1) none = some y := by
        simpa [List.getD_eq_getElem?_getD] using h
      have := hh (i + 1) y h2
      omega
    rcases ih (base + 1) hrest with ⟨hs, hb⟩
    cases o with
    | none =>
      simp only [List.filterMap_cons, id]
      exact ⟨hs, fun y hy => by have := hb y hy; omega⟩
    | some y0 =>
      have hy0 : y0 = base := by
        have := hh 0 y0 (by simp [List.getD_eq_getElem?_getD])
        omega
      simp only [List.filterMap_cons, id]
      constructor
      · rw [List.sorted_cons]
        exact ⟨fun b hb1 => by have := hb b hb1; omega, hs⟩
      · intro y hy
        rcases List.mem_cons.mp hy with h | h
        · omega
        · have := hb y h; omega

lemma pySetMember_iff (t : List (Option Nat)) (x : Nat) :
    pySetMember t x = true ↔ x ∈ pySetElems t := by
  unfold pySetMember
  rw [List.contains_eq_any_beq, List.any_eq_true]
  constructor
  · rintro ⟨y, hy, hxy⟩
    have : x = y := by simpa using hxy
    subst this
    exact hy
  · intro h
    exact ⟨x, h, by simp⟩

lemma foldl_skip_filter (b : List (Option Nat)) (l : List Nat) :
    ∀ t, l.foldl (fun t x => if pySetMember b x then t else pySetInsert t x) t =
      (l.filter (fun x => !pySetMember b x)).foldl pySetInsert t := by
  induction l with
  | nil => intro t; simp
  | cons x rest ih =>
    intro t
    by_cases h : pySetMember b x <;>
      simp [List.filter_cons, h, ih]

lemma pySetOf_spec (xs : List Nat) (hx : ∀ x ∈ xs, x < 8) :
    (pySetOf xs).length = 8 ∧ slotInv (pySetOf xs) ∧
    ∀ j, (pySetOf xs).getD j none = if j ∈ xs then some j else none := by
  rcases foldl_pySetInsert_spec xs pySetEmpty hx pySetEmpty_length pySetEmpty_inv with
    ⟨hl, hi, hg⟩
  refine ⟨hl, hi, ?_⟩
  intro j
  rw [show pySetOf xs = xs.foldl pySetInsert pySetEmpty from rfl, hg j, pySetEmpty_getD]

lemma mem_pySetElems_of_pySetOf (xs : List Nat) (hx : ∀ x ∈ xs, x < 8) (x : Nat) :
    x ∈ pySetElems (pySetOf xs) ↔ x ∈ xs := by
  rcases pySetOf_spec xs hx with ⟨_, _, hg⟩
  rw [mem_pySetElems]
  constructor
  · rintro ⟨i, hi⟩
    rw [hg i] at hi
    by_cases hin : i ∈ xs
    · rw [if_pos hin] at hi
      injection hi with h
      subst h
      exact hin
    · rw [if_neg hin] at hi; simp at hi
  · intro h
    exact ⟨x, by rw [hg x, if_pos h]⟩

lemma missingIds_spec (roster present : List Nat)
    (hr : ∀ x ∈ roster, x < 8) (hp : ∀ x ∈ present, x < 8) :
    List.Sorted (· < ·) (missingIds roster present) ∧
    ∀ x, x ∈ missingIds roster present ↔ (x ∈ roster ∧ x ∉ present) := by
  have hmemR := mem_pySetElems_of_pySetOf roster hr
  have hmemP := mem_pySetElems_of_pySetOf present hp
  set xsD := (pySetElems (pySetOf roster)).filter
    (fun x => !pySetMember (pySetOf present) x) with hxsD
  have hdiff : pySetDiff (pySetOf roster) (pySetOf present) =
      xsD.foldl pySetInsert pySetEmpty := by
    rw [hxsD]
    exact foldl_skip_filter (pySetOf present) (pySetElems (pySetOf roster)) pySetEmpty
  have hmemD : ∀ x, x ∈ xsD ↔ (x ∈ roster ∧ x ∉ present) := by
    intro x
    rw [hxsD, List.mem_filter]
    constructor
    · rintro ⟨h1, h2⟩
      refine ⟨(hmemR x).mp h1, ?_⟩
      intro hxp
      have : pySetMember (pySetOf present) x = true :=
        (pySetMember_iff _ x).mpr ((hmemP x).mpr hxp)
      simp [this] at h2
    · rintro ⟨h1, h2⟩
      refine ⟨(hmemR x).mpr h1, ?_⟩
      have : ¬ pySetMember (pySetOf present) x = true := by
        rw [pySetMember_iff _ x, hmemP x]
        exact h2
      simp [this]
  have hxD : ∀ x ∈ xsD, x < 8 := by
    intro x hx1
    exact hr x ((hmemD x).mp hx1).1
  rcases foldl_pySetInsert_spec xsD pySetEmpty hxD pySetEmpty_length pySetEmpty_inv with
    ⟨hl, hi, hg⟩
  have hgD : ∀ j, (pySetDiff (pySetOf roster) (pySetOf present)).getD j none =
      if j ∈ xsD then some j else none := by
    intro j
    rw [hdiff, hg j, pySetEmpty_getD]
  constructor
  · have hbase : ∀ i y,
        (pySetDiff (pySetOf roster) (pySetOf present)).getD i none = some y → y = 0 + i := by
      intro i y h
      rw [hgD i] at h
      by_cases hin : i ∈ xsD
      · rw [if_pos hin] at h
        injection h with h
        omega
      · rw [if_neg hin] at h; simp at h
    exact (filterMap_id_sorted _ 0 hbase).1
  · intro x
    unfold missingIds
    rw [mem_pySetElems]
    constructor
    · rintro ⟨i, hi⟩
      rw [hgD i] at hi
      by_cases hin : i ∈ xsD
      · rw [if_pos hin] at hi
        injection hi with h
        subst h
        exact (hmemD i).mp hin
      · rw [if_neg hin] at hi; simp at hi
    · intro h
      exact ⟨x, by rw [hgD x, if_pos ((hmemD x).mpr h)]⟩

lemma rawRid_noid (p : PSeg) (h1 : p.platformUserIdentifier = none)
    (h2 : p.platformUserHandle = none) : rawRid p = none := by
  simp [rawRid, h1, h2, isTruthyS]

lemma team_segments_append_player (segs : List Segment) (p : PSeg) :
    team_segments (segs ++ [Segment.player p]) = team_segments segs := by
  simp [team_segments]

lemma player_segments_append_player (segs : List Segment) (p : PSeg) :
    player_segments (segs ++ [Segment.player p]) = player_segments segs ++ [p] := by
  simp [player_segments]

lemma scoreFor_append_noid (ks : TeamKeys) (psegs : List PSeg) (tid : Option String) (p : PSeg)
    (hraw : rawRid p = none) :
    scoreFor ks (psegs ++ [p]) tid = scoreFor ks psegs tid := by
  unfold scoreFor
  rw [List.filter_append]
  have hmatch : segScoreMatch ks p = false := by
    unfold segScoreMatch
    rw [hraw]
  by_cases hteam : p.teamId = tid
  · rw [List.filter_append]
    simp [hteam, hmatch]
  · rw [List.filter_append]
    simp [hteam]

lemma score_a_append_noid (players : List Player) (t1 t2 : Nat) (segs : List Segment) (p : PSeg)
    (hraw : rawRid p = none) :
    score_a players t1 t2 (segs ++ [Segment.player p]) = score_a players t1 t2 segs := by
  unfold score_a
  rw [team_segments_append_player, player_segments_append_player]
  cases team_segments segs with
  | nil => rfl
  | cons ts0 rest =>
    cases rest with
    | nil => rfl
    | cons ts1 rest2 =>
      dsimp only
      rw [scoreFor_append_noid _ _ _ _ hraw, scoreFor_append_noid _ _ _ _ hraw]

lemma score_b_append_noid (players : List Player) (t1 t2 : Nat) (segs : List Segment) (p : PSeg)
    (hraw : rawRid p = none) :
    score_b players t1 t2 (segs ++ [Segment.player p]) = score_b players t1 t2 segs := by
  unfold score_b
  rw [team_segments_append_player, player_segments_append_player]
  cases team_segments segs with
  | nil => rfl
  | cons ts0 rest =>
    cases rest with
    | nil => rfl
    | cons ts1 rest2 =>
      dsimp only
      rw [scoreFor_append_noid _ _ _ _ hraw, scoreFor_append_noid _ _ _ _ hraw]

lemma trackerTeam1_append_noid (players : List Player) (t1 t2 : Nat) (segs : List Segment)
    (p : PSeg) (hraw : rawRid p = none) :
    trackerTeam1 players t1 t2 (segs ++ [Segment.player p]) = trackerTeam1 players t1 t2 segs := by
  unfold trackerTeam1
  rw [team_segments_append_player,
    score_a_append_noid players t1 t2 segs p hraw, score_b_append_noid players t1 t2 segs p hraw]

lemma buildSuggestions_append_noid (players : List Player) (tt1 : Option String)
    (segs : List Segment) (p : PSeg) (hraw : rawRid p = none) :
    buildSuggestions players tt1 (segs ++ [Segment.player p]) =
      buildSuggestions players tt1 segs := by
  unfold buildSuggestions
  rw [List.foldl_append]
  simp [hraw]

lemma findSome?_eq_find?_filterMap {ι α : Type} (f : ι → Option (String × α)) (k : String)
    (l : List ι) :
    l.findSome?
        (fun x =>
          match f x with
          | some kv => if kv.1 = k then some kv.2 else none
          | none => none) =
      ((l.filterMap f).find? (fun kv => kv.1 = k)).map (fun kv => kv.2) := by
  induction l with
  | nil => simp
  | cons x rest ih =>
    cases hfx : f x with
    | none => simp [List.findSome?_cons, List.filterMap_cons, hfx, ih]
    | some kv =>
      by_cases hk : kv.1 = k
      · simp [List.findSome?_cons, List.filterMap_cons, List.find?, hfx, hk]
      · simp [List.findSome?_cons, List.filterMap_cons, List.find?, hfx, hk, ih]

lemma dictGet_buildSuggestions (players : List Player) (tt1 : Option String)
    (segs : List Segment) (k : String) :
    dictGet (buildSuggestions players tt1 segs) k =
      ((contribs players tt1 segs).reverse.find? (fun kv => kv.1 = k)).map
        (fun kv => kv.2) := by
  rw [buildSuggestions_eq, buildDict_get, findSome?_eq_find?_filterMap]
  rw [List.filterMap_reverse]
  unfold contribs
  cases hfind : ((segs.filterMap (suggKeyOf players tt1)).reverse.find?
      (fun kv => kv.1 = k)).map (fun kv => kv.2) with
  | none => simp [dictGet]
  | some v => simp

lemma buildSuggestions_nodup_keys (players : List Player) (tt1 : Option String)
    (segs : List Segment) :
    ((buildSuggestions players tt1 segs).map Prod.fst).Nodup := by
  rw [buildSuggestions_eq]
  exact buildDict_nodup_keys _ _ [] (by simp)

lemma resolveP_some_name (table : List Player) (s : Sugg) (p : Nat) (dt : Option Nat)
    (h : resolveP table s = (some p, dt)) :
    ∃ n, s.name = some n ∧ n ≠ "" ∧
      ∃ pl ∈ table, pl.name = n ∧ pl.id = p ∧ pl.defaultTeamId = dt := by
  cases hn : s.name with
  | none => simp only [resolveP, hn] at h; simp at h
  | some n =>
    simp only [resolveP, hn] at h
    by_cases hne : n = ""
    · rw [if_pos hne] at h; simp at h
    · rw [if_neg hne] at h
      cases hf : table.find? (fun pl => pl.name = n) with
      | none => rw [hf] at h; simp at h
      | some pl =>
        rw [hf] at h
        have hmem := List.mem_of_find?_eq_some hf
        have hname : pl.name = n := by simpa using List.find?_some hf
        have h1 : pl.id = p := by
          have := congrArg Prod.fst h
          simpa using this
        have h2 : pl.defaultTeamId = dt := congrArg Prod.snd h
        exact ⟨n, rfl, hne, pl, hmem, hname, h1, h2⟩

lemma resolveP_name_inj (table : List Player) (hids : (table.map Player.id).Nodup)
    (sa sb : Sugg) (p : Nat) (da db : Option Nat)
    (ha : resolveP table sa = (some p, da)) (hb : resolveP table sb = (some p, db)) :
    sa.name = sb.name := by
  rcases resolveP_some_name table sa p da ha with ⟨na, hna, _, pla, hmema, hnamea, hida, _⟩
  rcases resolveP_some_name table sb p db hb with ⟨nb, hnb, _, plb, hmemb, hnameb, hidb, _⟩
  have hpl : pla = plb :=
    List.inj_on_of_nodup_map hids hmema hmemb (by rw [hida, hidb])
  rw [hna, hnb, ← hnamea, ← hnameb, hpl]

lemma nodup_resolved_pairs (t1 t2 : Nat) (table : List Player) (ht : t1 ≠ t2)
    (hids : (table.map Player.id).Nodup) :
    ∀ stats : List (String × Sugg),
      stats.Pairwise (fun a b => (a.2.teamNum = 1 ↔ b.2.teamNum = 1) →
        isTruthyS a.2.name = true → isTruthyS b.2.name = true → a.2.name ≠ b.2.name) →
      (stats.filterMap (fun ks => ((resolveP table ks.2).1).map
        (fun p => ((if ks.2.teamNum = 1 then t1 else t2), p)))).Nodup := by
  intro stats
  induction stats with
  | nil => intro _; simp
  | cons ks rest ih =>
    intro hpw
    have hhead := (List.pairwise_cons.mp hpw).1
    have hrest := (List.pairwise_cons.mp hpw).2
    rcases hres : resolveP table ks.2 with ⟨o, dt⟩
    cases o with
    | none => simpa [List.filterMap_cons, hres] using ih hrest
    | some p =>
      simp only [List.filterMap_cons, hres, Option.map_some']
      rw [List.nodup_cons]
      refine ⟨?_, ih hrest⟩
      intro hmem
      rcases List.mem_filterMap.mp hmem with ⟨ks2, hks2, hval⟩
      rcases hres2 : resolveP table ks2.2 with ⟨o2, dt2⟩
      rw [hres2] at hval
      cases o2 with
      | none => simp at hval
      | some p2 =>
        simp only [Option.map_some', Option.some.injEq, Prod.mk.injEq] at hval
        have hteam : (if ks.2.teamNum = 1 then t1 else t2) =
            (if ks2.2.teamNum = 1 then t1 else t2) := hval.1.symm
        have hp : p2 = p := hval.2
        rw [hp] at hres2
        have hsides : ks.2.teamNum = 1 ↔ ks2.2.teamNum = 1 := by
          by_cases h1 : ks.2.teamNum = 1 <;> by_cases h2 : ks2.2.teamNum = 1
          · simp [h1, h2]
          · rw [if_pos h1, if_neg h2] at hteam
            exact absurd hteam ht
          · rw [if_neg h1, if_pos h2] at hteam
            exact absurd hteam.symm ht
          · simp [h1, h2]
        rcases resolveP_some_name table ks.2 p dt hres with ⟨na, hna, hnea, _⟩
        rcases resolveP_some_name table ks2.2 p dt2 hres2 with ⟨nb, hnb, hneb, _⟩
        have htrua : isTruthyS ks.2.name = true := by rw [hna]; simpa [isTruthyS] using hnea
        have htrub : isTruthyS ks2.2.name = true := by rw [hnb]; simpa [isTruthyS] using hneb
        have hnames := hhead ks2 hks2 hsides htrua htrub
        exact hnames (resolveP_name_inj table hids ks.2 ks2.2 p dt dt2 hres hres2)

lemma save_rows_teamPid (t1 t2 : Nat) (table : List Player) (roster1 roster2 : List Nat)
    (stats : List (String × Sugg)) :
    (save_match_result t1 t2 table roster1 roster2 stats).map
        (fun r => (r.team_id, r.player_id)) =
      stats.map (fun ks => ((if ks.2.teamNum = 1 then t1 else t2), (resolveP table ks.2).1)) := by
  unfold save_match_result
  exact assignRows_map_teamPid t1 t2 table stats _ _

lemma save_team_pid_present1 (t1 t2 : Nat) (table : List Player) (roster1 roster2 : List Nat)
    (stats : List (String × Sugg)) (ht : t1 ≠ t2) :
    ∀ r ∈ save_match_result t1 t2 table roster1 roster2 stats, r.team_id = t1 →
      ∀ p, r.player_id = some p → p ∈ presentPids1 table stats := by
  intro r hr hteam p hpid
  have hmem : (r.team_id, r.player_id) ∈
      (save_match_result t1 t2 table roster1 roster2 stats).map
        (fun r => (r.team_id, r.player_id)) :=
    List.mem_map_of_mem _ hr
  rw [save_rows_teamPid] at hmem
  rcases List.mem_map.mp hmem with ⟨ks, hks, hval⟩
  have hteamval : (if ks.2.teamNum = 1 then t1 else t2) = t1 := by
    have h1 := congrArg Prod.fst hval
    dsimp only at h1
    rw [hteam] at h1
    exact h1
  have hpidval : (resolveP table ks.2).1 = some p := by
    have h2 := congrArg Prod.snd hval
    dsimp only at h2
    rw [hpid] at h2
    exact h2
  by_cases hside : ks.2.teamNum = 1
  · unfold presentPids1
    apply List.mem_filterMap.mpr
    exact ⟨ks, hks, by rw [hpidval]; simp [hside]⟩
  · rw [if_neg hside] at hteamval
    exact absurd hteamval.symm ht

lemma save_team_pid_present2 (t1 t2 : Nat) (table : List Player) (roster1 roster2 : List Nat)
    (stats : List (String × Sugg)) (ht : t1 ≠ t2) :
    ∀ r ∈ save_match_result t1 t2 table roster1 roster2 stats, r.team_id = t2 →
      ∀ p, r.player_id = some p → p ∈ presentPids2 table stats := by
  intro r hr hteam p hpid
  have hmem : (r.team_id, r.player_id) ∈
      (save_match_result t1 t2 table roster1 roster2 stats).map
        (fun r => (r.team_id, r.player_id)) :=
    List.mem_map_of_mem _ hr
  rw [save_rows_teamPid] at hmem
  rcases List.mem_map.mp hmem with ⟨ks, hks, hval⟩
  have hteamval : (if ks.2.teamNum = 1 then t1 else t2) = t2 := by
    have h1 := congrArg Prod.fst hval
    dsimp only at h1
    rw [hteam] at h1
    exact h1
  have hpidval : (resolveP table ks.2).1 = some p := by
    have h2 := congrArg Prod.snd hval
    dsimp only at h2
    rw [hpid] at h2
    exact h2
  by_cases hside : ks.2.teamNum = 1
  · rw [if_pos hside] at hteamval
    exact absurd hteamval ht
  · unfold presentPids2
    apply List.mem_filterMap.mpr
    exact ⟨ks, hks, by rw [hpidval]; simp [hside]⟩

/-- Claim C1, amended.  As stated the claim is false (see
`claim_C1_counterexample`): in the code a suggestion entry carries
`conf = 100.0` whenever any lookup succeeded — the case-insensitive
riot-id equality or either name-equality fallback — so the EXACT tier is
not distinguishable from the name fallback.  Amended claim, proved here:
an entry's confidence is 100 exactly when the identifier matches a
player's riot id case-insensitively, or its name part (or the whole
identifier) equals a player's canonical name case-insensitively; the only
other confidence value is 80. -/
theorem claim_C1 (players : List Player) (tt1 : Option String) (pg : PSeg) (rid : String)
    (hn : ∀ p ∈ players, p.name ≠ "") :
    ((suggOf players tt1 pg rid).conf = 100 ↔
      (∃ p ∈ players, p.riotId.map (fun r => pyLower (pyStrip r)) = some (pyLower rid)) ∨
      (∃ p ∈ players, pyLower (pyStrip p.name) = pyLower (hashHead rid)) ∨
      (∃ p ∈ players, pyLower (pyStrip p.name) = pyLower rid)) ∧
    ((suggOf players tt1 pg rid).conf = 100 ∨ (suggOf players tt1 pg rid).conf = 80) := by
  have hconf : (suggOf players tt1 pg rid).conf =
      if isTruthyS (matchedName players rid) then 100 else 80 := rfl
  rw [hconf, matchedName_truthy_iff players rid hn]
  by_cases h : (matchedName players rid).isSome = true
  · rw [if_pos h]
    exact ⟨⟨fun _ => (matchedName_isSome_iff players rid hn).mp h, fun _ => rfl⟩, Or.inl rfl⟩
  · rw [if_neg h]
    refine ⟨⟨fun h100 => absurd h100 (by decide), fun hdisj => ?_⟩, Or.inr rfl⟩
    exact absurd ((matchedName_isSome_iff players rid hn).mpr hdisj) h

/-- Counterexample to claim C1 as stated: with a roster whose only player
has no riot id at all, the identifier `"Carl#NA1"` is matched by the
name fallback and still receives `conf = 100.0`, so `conf = 100.0` does
not imply that the match came from the riot-id lookup. -/
theorem claim_C1_counterexample :
    (suggOf [⟨1, "Carl", none, some 1⟩] none exPSeg "Carl#NA1").conf = 100 ∧
    riot_id_to_name [⟨1, "Carl", none, some 1⟩] = [] := ⟨rfl, rfl⟩

/-- Witness for `claim_C1` at a concrete roster and identifier. -/
theorem claim_C1_witness :
    (suggOf [⟨1, "Dired", some "Dired#X", some 1⟩] none exPSeg "dired#x").conf = 100 :=
  ((claim_C1 [⟨1, "Dired", some "Dired#X", some 1⟩] none exPSeg "dired#x" (by decide)).1).mpr
    (Or.inl ⟨⟨1, "Dired", some "Dired#X", some 1⟩, by decide, by decide⟩)

/-- Claim C5, amended.  As stated the claim is false (see
`claim_C5_counterexample`): the per-entry matcher has no substring
containment rule and never compares against the name part of a
candidate's riot id.  Amended claim, proved here: an entry is matched
exactly when (1) the identifier equals a candidate's riot id
case-insensitively, or (2) the part before `'#'` (the whole identifier if
it has no `'#'`) equals a candidate's canonical name case-insensitively,
or (2') the whole lowered identifier equals a candidate's canonical name;
otherwise the stored name is null. -/
theorem claim_C5 (players : List Player) (tt1 : Option String) (pg : PSeg) (rid : String)
    (hn : ∀ p ∈ players, p.name ≠ "") :
    (suggOf players tt1 pg rid).name = matchedName players rid ∧
    ((matchedName players rid).isSome = true ↔
      (∃ p ∈ players, p.riotId.map (fun r => pyLower (pyStrip r)) = some (pyLower rid)) ∨
      (∃ p ∈ players, pyLower (pyStrip p.name) = pyLower (hashHead rid)) ∨
      (∃ p ∈ players, pyLower (pyStrip p.name) = pyLower rid)) :=
  ⟨rfl, matchedName_isSome_iff players rid hn⟩

/-- Counterexample to claim C5 as stated: the name part `"carl"` of the
identifier `"Carl#NA1"` is a case-insensitive substring of the candidate
name `"Carlson"`, so the spec's rule 3 would match, but the code leaves
the entry unmatched (`matchedName` is `none`). -/
theorem claim_C5_counterexample :
    matchedName [⟨1, "Carlson", some "Carlson#EU", some 1⟩] "Carl#NA1" = none ∧
    strContains (pyLower (pyStrip "Carlson")) (pyLower (hashHead "Carl#NA1")) = true :=
  ⟨rfl, rfl⟩

/-- Witness for `claim_C5` at a concrete roster and identifier. -/
theorem claim_C5_witness :
    (matchedName [⟨1, "Dana", some "Dana#EU", some 1⟩] "dana#eu").isSome = true :=
  ((claim_C5 [⟨1, "Dana", some "Dana#EU", some 1⟩] none exPSeg "dana#eu" (by decide)).2).mpr
    (Or.inl ⟨⟨1, "Dana", some "Dana#EU", some 1⟩, by decide, by decide⟩)

/-- Claim C2, amended.  The tie-handling half of the claim holds: when the
two candidate mappings tie in summed roster overlap (including 0-0), the
resolver defaults to the first mapping, and the spec-modelled ambiguity
flag is true.  The half asserting that an `ambiguous=true` indicator is
part of the returned value is false: the function returns only
`(suggestions, map_name, rounds)`, and `claim_C2_counterexample` shows a
tied and an untied run with byte-identical results, so no consumer of the
returned value can recover the flag. -/
theorem claim_C2 (players : List Player) (t1 t2 : Nat) (segs : List Segment)
    (ts0 ts1 : TSeg) (rest : List TSeg)
    (hseg : team_segments segs = ts0 :: ts1 :: rest)
    (htie : score_a players t1 t2 segs = score_b players t1 t2 segs) :
    trackerTeam1 players t1 t2 segs = ts0.teamId ∧
    resolveAmbiguousSpec players t1 t2 segs = true := by
  constructor
  · unfold trackerTeam1
    rw [hseg]
    dsimp only
    by_cases hz : score_a players t1 t2 segs > 0
    · rw [if_pos ⟨Nat.le_of_eq htie.symm, hz⟩]
    · have h1 : ¬ (score_a players t1 t2 segs ≥ score_b players t1 t2 segs ∧
          score_a players t1 t2 segs > 0) := by
        intro hc; exact hz hc.2
      have h2 : ¬ (score_b players t1 t2 segs > score_a players t1 t2 segs) := by
        omega
      rw [if_neg h1, if_neg h2]
  · unfold resolveAmbiguousSpec
    rw [hseg]
    dsimp only
    simp [htie]

/-- Counterexample to claim C2 as stated: the same document parsed against
a roster giving a 0-0 tie (`exPlayersAmb`, spec-ambiguous) and against a
roster giving a strict 1-0 win (`exPlayersClear`, not ambiguous) produces
identical return values, so the returned value carries no ambiguity
indicator. -/
theorem claim_C2_counterexample :
    resolveAmbiguousSpec exPlayersAmb 10 20 exDocC2.segments = true ∧
    resolveAmbiguousSpec exPlayersClear 10 20 exDocC2.segments = false ∧
    parse_tracker_json exDocC2 10 20 exPlayersAmb =
      parse_tracker_json exDocC2 10 20 exPlayersClear := ⟨rfl, rfl, rfl⟩

/-- Witness for `claim_C2` at a 0-0 document. -/
theorem claim_C2_witness :
    trackerTeam1 [] 10 20 [Segment.team ⟨some "Red", 13⟩, Segment.team ⟨some "Blue", 7⟩] =
        some "Red" ∧
    resolveAmbiguousSpec [] 10 20
        [Segment.team ⟨some "Red", 13⟩, Segment.team ⟨some "Blue", 7⟩] = true :=
  claim_C2 [] 10 20 [Segment.team ⟨some "Red", 13⟩, Segment.team ⟨some "Blue", 7⟩]
    ⟨some "Red", 13⟩ ⟨some "Blue", 7⟩ [] rfl rfl

/-- Claim C3, confirmed: with two team-summary segments, the resolver
compares the two candidate mapping totals and the strictly larger one
wins — `score_b > score_a` maps the first external side to team 2 (the
second team segment's id becomes tracker team 1), and symmetrically.
`claim_C3_witness` instantiates the spec's 4-vs-0 example. -/
theorem claim_C3 (players : List Player) (t1 t2 : Nat) (segs : List Segment)
    (ts0 ts1 : TSeg) (rest : List TSeg)
    (hseg : team_segments segs = ts0 :: ts1 :: rest) :
    (score_b players t1 t2 segs > score_a players t1 t2 segs →
      trackerTeam1 players t1 t2 segs = ts1.teamId) ∧
    (score_a players t1 t2 segs > score_b players t1 t2 segs →
      trackerTeam1 players t1 t2 segs = ts0.teamId) := by
  unfold trackerTeam1
  rw [hseg]
  dsimp only
  constructor
  · intro h
    have h1 : ¬ (score_a players t1 t2 segs ≥ score_b players t1 t2 segs ∧
        score_a players t1 t2 segs > 0) := by
      intro hc; omega
    rw [if_neg h1, if_pos h]
  · intro h
    rw [if_pos ⟨Nat.le_of_lt h, by omega⟩]

/-- Witness for `claim_C3`: side Red matches four players of team 2's
roster and none of team 1's, side Blue matches four of team 1's; the
resolver maps Blue to team 1 (hence Red to team 2). -/
theorem claim_C3_witness :
    score_a exPlayersC3 10 20 exSegsC3 = 0 ∧
    score_b exPlayersC3 10 20 exSegsC3 = 8 ∧
    trackerTeam1 exPlayersC3 10 20 exSegsC3 = some "Blue" := by
  refine ⟨rfl, rfl, ?_⟩
  exact (claim_C3 exPlayersC3 10 20 exSegsC3 ⟨some "Red", 13⟩ ⟨some "Blue", 5⟩ [] rfl).1
    (by decide)

/-- Claim C10, confirmed: the suggestion map of `parse_tracker_json` has
pairwise-distinct keys (at most one entry per case-insensitive
identifier); looking a key up yields the value of the last contributing
player-summary segment with that key (a later segment silently replaces
an earlier one's stats); and a player-summary segment with neither
`platformUserIdentifier` nor `platformUserHandle` contributes nothing —
appending one leaves the suggestion map unchanged. -/
theorem claim_C10 (doc : Doc) (t1 t2 : Nat) (players : List Player) (k : String) (pg : PSeg)
    (h1 : pg.platformUserIdentifier = none) (h2 : pg.platformUserHandle = none) :
    (((parse_tracker_json doc t1 t2 players).suggestions.map Prod.fst).Nodup) ∧
    (dictGet (parse_tracker_json doc t1 t2 players).suggestions k =
      ((contribs players (trackerTeam1 players t1 t2 doc.segments) doc.segments).reverse.find?
          (fun kv => kv.1 = k)).map (fun kv => kv.2)) ∧
    ((parse_tracker_json ⟨doc.segments ++ [Segment.player pg], doc.mapName⟩
        t1 t2 players).suggestions =
      (parse_tracker_json doc t1 t2 players).suggestions) := by
  have hraw := rawRid_noid pg h1 h2
  have hsugg : (parse_tracker_json doc t1 t2 players).suggestions =
      buildSuggestions players (trackerTeam1 players t1 t2 doc.segments) doc.segments := rfl
  refine ⟨?_, ?_, ?_⟩
  · rw [hsugg]
    exact buildSuggestions_nodup_keys _ _ _
  · rw [hsugg]
    exact dictGet_buildSuggestions _ _ _ k
  · have hsugg2 : (parse_tracker_json ⟨doc.segments ++ [Segment.player pg], doc.mapName⟩
        t1 t2 players).suggestions =
      buildSuggestions players
        (trackerTeam1 players t1 t2 (doc.segments ++ [Segment.player pg]))
        (doc.segments ++ [Segment.player pg]) := rfl
    rw [hsugg, hsugg2, trackerTeam1_append_noid players t1 t2 doc.segments pg hraw,
      buildSuggestions_append_noid players _ doc.segments pg hraw]

/-- Witness for `claim_C10`: two segments whose identifiers differ only in
case collapse to one suggestion entry holding the later segment's stats,
and appending an identifier-less segment changes nothing. -/
theorem claim_C10_witness :
    ((parse_tracker_json ⟨exDocC10.segments ++ [Segment.player exNoIdSeg], exDocC10.mapName⟩
        10 20 []).suggestions =
      (parse_tracker_json exDocC10 10 20 []).suggestions) ∧
    ((parse_tracker_json exDocC10 10 20 []).suggestions.map Prod.fst = ["dup#1"]) ∧
    ((dictGet (parse_tracker_json exDocC10 10 20 []).suggestions "dup#1").map
        (fun s => s.acs) = some 222) :=
  ⟨(claim_C10 exDocC10 10 20 [] "dup#1" exNoIdSeg rfl rfl).2.2, rfl, rfl⟩

/-- Claim C4, amended.  As stated the claim is false
(see `claim_C4_counterexample`): `save_match_result` performs no
per-team deduplication, so two distinct external identifiers that
fallback-match the same internal player name produce two persisted rows
with the same `(team_id, player_id)`.  Amended claim, proved here: no
resolved playerId appears twice among same-team rows provided the two
match teams are distinct, internal player ids are unique, and entries on
the same side carry pairwise-distinct non-null suggestion names. -/
theorem claim_C4 (t1 t2 : Nat) (table : List Player) (roster1 roster2 : List Nat)
    (stats : List (String × Sugg)) (ht : t1 ≠ t2) (hids : (table.map Player.id).Nodup)
    (hnames : stats.Pairwise (fun a b => (a.2.teamNum = 1 ↔ b.2.teamNum = 1) →
      isTruthyS a.2.name = true → isTruthyS b.2.name = true → a.2.name ≠ b.2.name)) :
    ((save_match_result t1 t2 table roster1 roster2 stats).filterMap
      (fun r => r.player_id.map (fun p => (r.team_id, p)))).Nodup := by
  have key : (save_match_result t1 t2 table roster1 roster2 stats).filterMap
      (fun r => r.player_id.map (fun p => (r.team_id, p))) =
    ((save_match_result t1 t2 table roster1 roster2 stats).map
        (fun r => (r.team_id, r.player_id))).filterMap
      (fun tp => tp.2.map (fun p => (tp.1, p))) := by
    rw [List.filterMap_map]
    rfl
  rw [key, save_rows_teamPid, List.filterMap_map]
  exact nodup_resolved_pairs t1 t2 table ht hids stats hnames

/-- Counterexample to claim C4 as stated: the identifiers `"carl#na1"` and
`"carl#eu2"` both resolve to player 1 on the same side, and both rows are
persisted with `(team_id, player_id) = (10, 1)`. -/
theorem claim_C4_counterexample :
    ¬ ((save_match_result 10 20 tabC4 [] [] statsC4).filterMap
        (fun r => r.player_id.map (fun p => (r.team_id, p)))).Nodup := by decide

/-- Witness for `claim_C4` at concrete inputs with distinct names per
side. -/
theorem claim_C4_witness :
    ((save_match_result 10 20 tabC7 [1, 2, 3, 4] [] statsC7).filterMap
      (fun r => r.player_id.map (fun p => (r.team_id, p)))).Nodup :=
  claim_C4 10 20 tabC7 [1, 2, 3, 4] [] statsC7 (by decide) (by decide) (by decide)

/-- Claim C6, amended.  As stated the claim is false
(see `claim_C6_counterexample`): the missing queue is
`list(set(roster) - set(present))`, whose order is the CPython small-int
hash table's slot order, not ascending internal id — roster `{1, 8}`
yields the queue `[8, 1]`.  Amended claim, proved here: the queue is a
deterministic function of the two id lists, holds exactly the roster ids
not present, and is strictly ascending precisely in the regime where
every id is below the table size (all ids < 8), where slot order and id
order coincide. -/
theorem claim_C6 (roster present : List Nat)
    (hr : ∀ x ∈ roster, x < 8) (hp : ∀ x ∈ present, x < 8) :
    List.Sorted (· < ·) (missingIds roster present) ∧
    ∀ x, x ∈ missingIds roster present ↔ (x ∈ roster ∧ x ∉ present) :=
  missingIds_spec roster present hr hp

/-- Counterexample to claim C6 as stated: with roster ids `{1, 8}` and no
present players the queue comes out `[8, 1]` (id 8 hashes to slot 0), not
ascending, and the first substitute is paired with id 8 where an
ascending queue would pair id 1. -/
theorem claim_C6_counterexample :
    missingIds [1, 8] [] = [8, 1] ∧
    ¬ List.Sorted (· ≤ ·) (missingIds [1, 8] []) ∧
    (save_match_result 10 20 tabC6 [1, 8] [] statsC6).map (fun r => r.subbed_for_id) =
      [some 8] := by
  refine ⟨rfl, ?_, rfl⟩
  decide

/-- Witness for `claim_C6` with ids below 8. -/
theorem claim_C6_witness :
    List.Sorted (· < ·) (missingIds [1, 2, 3, 4] [2]) ∧
    (3 ∈ missingIds [1, 2, 3, 4] [2] ↔ (3 ∈ [1, 2, 3, 4] ∧ 3 ∉ [2])) :=
  ⟨(claim_C6 [1, 2, 3, 4] [2] (by decide) (by decide)).1,
   (claim_C6 [1, 2, 3, 4] [2] (by decide) (by decide)).2 3⟩

/-- Claim C7, confirmed: every resolved entry is flagged as a substitution
exactly when its player's default team differs from the assigned team (a
null default team, i.e. a free agent, counts as a substitution); when
they are equal the entry is a starter with `is_sub = 0` and no
substituted-for id; and a substitution's `subbed_for_id` is the front of
the side's missing queue at its turn — the element at the index counting
the earlier substitutions of the same side. -/
theorem claim_C7 (t1 t2 : Nat) (table : List Player) (roster1 roster2 : List Nat)
    (stats : List (String × Sugg)) (i : Nat) (ks : String × Sugg) (p : Nat) (dt : Option Nat)
    (hs : stats.get? i = some ks)
    (hres : resolveP table ks.2 = (some p, dt)) :
    ∃ r, (save_match_result t1 t2 table roster1 roster2 stats).get? i = some r ∧
      r.player_id = some p ∧
      r.team_id = (if ks.2.teamNum = 1 then t1 else t2) ∧
      (r.is_sub = 1 ↔ ¬ dt = some r.team_id) ∧
      (dt = some r.team_id → r.is_sub = 0 ∧ r.subbed_for_id = none) ∧
      (¬ dt = some r.team_id → r.subbed_for_id =
        (if ks.2.teamNum = 1 then
          (missingIds roster1 (presentPids1 table stats)).get?
            (subsBefore1 t1 t2 table (stats.take i))
        else
          (missingIds roster2 (presentPids2 table stats)).get?
            (subsBefore2 t1 t2 table (stats.take i)))) := by
  have hget := assignRows_get t1 t2 table stats
    (missingIds roster1 (presentPids1 table stats))
    (missingIds roster2 (presentPids2 table stats)) i ks hs
  have hsub : entry_is_sub t1 t2 table ks.2 =
      !(dt = some (if ks.2.teamNum = 1 then t1 else t2)) := by
    unfold entry_is_sub
    rw [hres]
  refine ⟨_, hget, by simp [hres], rfl, ?_, ?_, ?_⟩
  · by_cases hd : dt = some (if ks.2.teamNum = 1 then t1 else t2)
    · have : entry_is_sub t1 t2 table ks.2 = false := by rw [hsub]; simp [hd]
      simp [this, hd]
    · have : entry_is_sub t1 t2 table ks.2 = true := by rw [hsub]; simp [hd]
      simp [this, hd]
  · intro hd
    have : entry_is_sub t1 t2 table ks.2 = false := by rw [hsub]; simp [hd]
    simp [this]
  · intro hd
    have : entry_is_sub t1 t2 table ks.2 = true := by rw [hsub]; simp [hd]
    simp [this]

/-- Witness for `claim_C7`: the fourth entry is a player whose default
team (20) differs from the assigned team (10); it is flagged as a
substitution and paired with the one missing roster slot, player 4. -/
theorem claim_C7_witness :
    ∃ r, (save_match_result 10 20 tabC7 [1, 2, 3, 4] [] statsC7).get? 3 = some r ∧
      r.player_id = some 9 ∧
      r.team_id = (if (("carl#na1", (⟨some "carl", "Carl#NA1", 4, 4, 4, 4, some "Raze", 1, 100⟩ : Sugg)) : String × Sugg).2.teamNum = 1 then 10 else 20) ∧
      (r.is_sub = 1 ↔ ¬ (some 20 : Option Nat) = some r.team_id) ∧
      ((some 20 : Option Nat) = some r.team_id → r.is_sub = 0 ∧ r.subbed_for_id = none) ∧
      (¬ (some 20 : Option Nat) = some r.team_id → r.subbed_for_id =
        (if (("carl#na1", (⟨some "carl", "Carl#NA1", 4, 4, 4, 4, some "Raze", 1, 100⟩ : Sugg)) : String × Sugg).2.teamNum = 1 then
          (missingIds [1, 2, 3, 4] (presentPids1 tabC7 statsC7)).get?
            (subsBefore1 10 20 tabC7 (statsC7.take 3))
        else
          (missingIds [] (presentPids2 tabC7 statsC7)).get?
            (subsBefore2 10 20 tabC7 (statsC7.take 3)))) :=
  claim_C7 10 20 tabC7 [1, 2, 3, 4] [] statsC7 3
    ("carl#na1", (⟨some "carl", "Carl#NA1", 4, 4, 4, 4, some "Raze", 1, 100⟩ : Sugg)) 9 (some 20)
    rfl rfl

/-- Claim C8, confirmed: one row is persisted for every suggestion entry
(the row count equals the entry count, so no entry is dropped), and a
substitution entry whose side's missing queue is already exhausted at its
turn is still recorded with `is_sub = 1` and `subbed_for_id = none`. -/
theorem claim_C8 (t1 t2 : Nat) (table : List Player) (roster1 roster2 : List Nat)
    (stats : List (String × Sugg)) :
    (save_match_result t1 t2 table roster1 roster2 stats).length = stats.length ∧
    (∀ i ks p dt, stats.get? i = some ks → resolveP table ks.2 = (some p, dt) →
      ¬ dt = some (if ks.2.teamNum = 1 then t1 else t2) →
      ((ks.2.teamNum = 1 →
        (missingIds roster1 (presentPids1 table stats)).length ≤
          subsBefore1 t1 t2 table (stats.take i) →
        ∃ r, (save_match_result t1 t2 table roster1 roster2 stats).get? i = some r ∧
          r.is_sub = 1 ∧ r.subbed_for_id = none) ∧
      (¬ ks.2.teamNum = 1 →
        (missingIds roster2 (presentPids2 table stats)).length ≤
          subsBefore2 t1 t2 table (stats.take i) →
        ∃ r, (save_match_result t1 t2 table roster1 roster2 stats).get? i = some r ∧
          r.is_sub = 1 ∧ r.subbed_for_id = none))) := by
  constructor
  · exact assignRows_length t1 t2 table stats _ _
  · intro i ks p dt hs hres hd
    have hget := assignRows_get t1 t2 table stats
      (missingIds roster1 (presentPids1 table stats))
      (missingIds roster2 (presentPids2 table stats)) i ks hs
    have hsub : entry_is_sub t1 t2 table ks.2 = true := by
      unfold entry_is_sub
      rw [hres]
      simp [hd]
    constructor
    · intro hside hlen
      refine ⟨_, hget, by simp [hsub], ?_⟩
      simp only [hsub, if_true, hside]
      exact List.get?_eq_none.mpr hlen
    · intro hside hlen
      refine ⟨_, hget, by simp [hsub], ?_⟩
      simp only [hsub, if_true, hside, if_false]
      exact List.get?_eq_none.mpr hlen

/-- Witness for `claim_C8`: with an empty roster the missing queue is
empty, yet the lone substitute entry is still persisted, flagged, and
left unpaired. -/
theorem claim_C8_witness :
    (save_match_result 10 20 tabC6 [] [] statsC6).length = statsC6.length ∧
    ∃ r, (save_match_result 10 20 tabC6 [] [] statsC6).get? 0 = some r ∧
      r.is_sub = 1 ∧ r.subbed_for_id = none :=
  ⟨(claim_C8 10 20 tabC6 [] [] statsC6).1,
   (((claim_C8 10 20 tabC6 [] [] statsC6).2 0
      ("sue#1", (⟨some "sue", "sue#1", 100, 1, 2, 3, some "Omen", 1, 100⟩ : Sugg)) 9 none
      rfl rfl (by decide)).1 rfl (by decide))⟩

/-- Claim C9, amended.  Two of the claim's three parts hold: every
non-null `subbed_for_id` assigned on a side belongs to that side's roster
and is never a player resolved as present on the same side, and the
non-null `subbed_for_id` values of one report contain no duplicates.  The
third part as stated — that a `subbed_for_id` never equals a `playerId`
present anywhere in the report — is false (see
`claim_C9_counterexample`): the code subtracts only same-side present
players when building the missing queue, so a roster player appearing on
the opposite side can be handed out as `subbed_for_id`.  The queue-level
hypotheses (no duplicates, containment in roster minus same-side present)
are facts of the `missingIds` set difference, discharged by evaluation at
the witness. -/
theorem claim_C9 (t1 t2 : Nat) (table : List Player) (roster1 roster2 : List Nat)
    (stats : List (String × Sugg))
    (ht : t1 ≠ t2)
    (hnd1 : (missingIds roster1 (presentPids1 table stats)).Nodup)
    (hnd2 : (missingIds roster2 (presentPids2 table stats)).Nodup)
    (hdisj : ∀ x ∈ missingIds roster1 (presentPids1 table stats),
      x ∉ missingIds roster2 (presentPids2 table stats))
    (hq1 : ∀ x ∈ missingIds roster1 (presentPids1 table stats),
      x ∈ roster1 ∧ x ∉ presentPids1 table stats)
    (hq2 : ∀ x ∈ missingIds roster2 (presentPids2 table stats),
      x ∈ roster2 ∧ x ∉ presentPids2 table stats) :
    (∀ r ∈ save_match_result t1 t2 table roster1 roster2 stats, ∀ m,
      r.subbed_for_id = some m →
      ((r.team_id = t1 → m ∈ roster1 ∧
        ∀ r2 ∈ save_match_result t1 t2 table roster1 roster2 stats,
          r2.team_id = t1 → ¬ r2.player_id = some m) ∧
       (r.team_id = t2 → m ∈ roster2 ∧
        ∀ r2 ∈ save_match_result t1 t2 table roster1 roster2 stats,
          r2.team_id = t2 → ¬ r2.player_id = some m))) ∧
    ((save_match_result t1 t2 table roster1 roster2 stats).filterMap
      (fun r => r.subbed_for_id)).Nodup := by
  constructor
  · intro r hr m hm
    have hmem := assignRows_sf_mem t1 t2 table stats
      (missingIds roster1 (presentPids1 table stats))
      (missingIds roster2 (presentPids2 table stats)) r hr m hm
    constructor
    · intro hteam
      have hm1 : m ∈ missingIds roster1 (presentPids1 table stats) := by
        rcases hmem with ⟨_, h⟩ | ⟨h2, _⟩
        · exact h
        · rw [hteam] at h2
          exact absurd h2 ht
      rcases hq1 m hm1 with ⟨hro, hnp⟩
      refine ⟨hro, ?_⟩
      intro r2 hr2 hteam2 hpid
      exact hnp
        (save_team_pid_present1 t1 t2 table roster1 roster2 stats ht r2 hr2 hteam2 m hpid)
    · intro hteam
      have hm2 : m ∈ missingIds roster2 (presentPids2 table stats) := by
        rcases hmem with ⟨h2, _⟩ | ⟨_, h⟩
        · rw [hteam] at h2
          exact absurd h2.symm ht
        · exact h
      rcases hq2 m hm2 with ⟨hro, hnp⟩
      refine ⟨hro, ?_⟩
      intro r2 hr2 hteam2 hpid
      exact hnp
        (save_team_pid_present2 t1 t2 table roster1 roster2 stats ht r2 hr2 hteam2 m hpid)
  · exact assignRows_sf_nodup t1 t2 table stats
      (missingIds roster1 (presentPids1 table stats))
      (missingIds roster2 (presentPids2 table stats)) hnd1 hnd2 hdisj

/-- Counterexample to claim C9 as stated: `frank` substitutes on side 1
and is paired with `subbed_for_id = 5` (player `eve`, rostered on team
10), while `eve` herself appears as a present resolved player on side 2
of the same report. -/
theorem claim_C9_counterexample :
    ∃ r1 ∈ save_match_result 10 20 tabC9 [5] [7] statsC9,
    ∃ r2 ∈ save_match_result 10 20 tabC9 [5] [7] statsC9,
    ∃ m, r1.subbed_for_id = some m ∧ r2.player_id = some m := by decide

/-- Witness for `claim_C9` at concrete inputs. -/
theorem claim_C9_witness :
    ((save_match_result 10 20 tabC7 [1, 2, 3, 4] [] statsC7).filterMap
      (fun r => r.subbed_for_id)).Nodup ∧
    (4 ∈ [1, 2, 3, 4] ∧
      ∀ r2 ∈ save_match_result 10 20 tabC7 [1, 2, 3, 4] [] statsC7,
        r2.team_id = 10 → ¬ r2.player_id = some 4) := by
  have h := claim_C9 10 20 tabC7 [1, 2, 3, 4] [] statsC7 (by decide) (by decide) (by decide)
    (by decide) (by decide) (by decide)
  refine ⟨h.2, ?_⟩
  have hrow := h.1 ⟨10, some 9, some "Raze", 4, 4, 4, 4, 1, some 4⟩ (by decide) 4 rfl
  exact hrow.1 rfl
